import Mathlib

/-!
# Upload and voice routes

A shallow embedding of `src/routes/uploadRoutes.js` (batch upload pipeline) and
`src/routes/voiceRoutes.js` (voice session pipeline).

Every external collaborator (file system reads, PDF/DOCX parsers, the OCR
microservice, the transcription process, the two language-model providers, the
session store) is an oracle: a value supplied by the environment that says how
the call ends, so that each call may succeed or throw, and the transcription
child process may also emit an `'error'` event that nothing handles.  Handlers are pure
functions from the request and the oracles to the response together with the
ordered list of collaborator calls they performed.

`String.prototype.toLowerCase` is a built-in of the JavaScript engine; its
Unicode case tables are not part of the sources, so it is a parameter
(`Js.Runtime`) of every function that calls it.

Typing assumptions on values that come from outside the program:
* the `model` query parameter is absent or a single string;
* text returned by collaborators is a string, `null` or `undefined`.
-/

/-- A thrown JavaScript error, identified by its message. -/
abbrev Error := String

namespace Js

/-- Whether every character of the string is an ASCII character. -/
def isAscii (s : String) : Bool := s.data.all (fun c => decide (c.val < 128))

/-- The string with the letters `A` to `Z` replaced by `a` to `z`. -/
def foldAscii (s : String) : String := ⟨s.data.map Char.toLower⟩

/-- The built-in `String.prototype.toLowerCase` of the engine the routes run on.
Its Unicode case tables are not part of the sources, so the function is a
parameter; the one fact about it that is used is what ECMAScript prescribes on
ASCII strings: the letters `A` to `Z` are folded and nothing else changes. -/
structure Runtime where
  /-- The value of `s.toLowerCase()`. -/
  toLowerCase : String → String
  /-- On an ASCII string, `toLowerCase` folds the letters `A` to `Z`. -/
  toLowerCase_ascii : ∀ s : String, isAscii s = true → toLowerCase s = foldAscii s

/-- A runtime that folds the letters `A` to `Z` in every string.  It satisfies
the law of `Runtime` and is used to instantiate theorems at ASCII inputs; it is
not meant to describe `toLowerCase` outside ASCII. -/
def asciiRuntime : Runtime :=
  { toLowerCase := foldAscii
    toLowerCase_ascii := fun _ _ => rfl }

/-- `s.startsWith(p)`. -/
def startsWith (s p : String) : Bool := p.data.isPrefixOf s.data

/-- Number of UTF-16 code units of one character. -/
def utf16Units (c : Char) : Nat := if c.val < 0x10000 then 1 else 2

/-- `s.length`: the number of UTF-16 code units of `s`. -/
def length (s : String) : Nat := (s.data.map utf16Units).sum

/-- `a || b` on strings: the empty string is falsy. -/
def orElse (a b : String) : String := if a = "" then b else a

/-- White space and line terminators removed by `String.prototype.trim`. -/
def isWhiteSpace (c : Char) : Bool :=
  let n := c.val.toNat
  n = 0x09 || n = 0x0A || n = 0x0B || n = 0x0C || n = 0x0D || n = 0x20 || n = 0xA0
    || n = 0x1680 || (0x2000 ≤ n && n ≤ 0x200A) || n = 0x2028 || n = 0x2029
    || n = 0x202F || n = 0x205F || n = 0x3000 || n = 0xFEFF

/-- `s.trim() === ''`. -/
def trimIsEmpty (s : String) : Bool := s.data.all isWhiteSpace

/-- `s.trim()`: white space and line terminators removed from both ends. -/
def trim (s : String) : String :=
  ⟨((s.data.dropWhile isWhiteSpace).reverse.dropWhile isWhiteSpace).reverse⟩

end Js

/-- A value that is a string, `null` or `undefined`. -/
inductive JsText where
  | null
  | undefined
  | str (s : String)
deriving DecidableEq, Repr

/-- How an awaited computation ends: its promise is fulfilled, its promise is
rejected (the `await` throws, which a surrounding `try` catches), or an
exception is raised outside the promise chain.  An exception of the last kind
is caught by no `try` block of the route: the promise stays pending, and Node
terminates the process on the uncaught exception, so the request is never
answered. -/
inductive Settled (α : Type) where
  | fulfilled (value : α)
  | rejected (error : Error)
  | uncaught (error : Error)
deriving DecidableEq, Repr

namespace UploadRoutes

/-- A byte buffer as returned by `fs.readFileSync(path)`. -/
abbrev Buffer := List Nat

/-- The fields of a multer file object that the route reads. -/
structure UploadedFile where
  filename : String
  originalname : String
  mimetype : String
  size : Nat
  path : String
deriving DecidableEq, Repr

/-- The five extraction paths of the route. -/
inductive Extractor where
  | pdf
  | word
  | plainText
  | ocr
  | video
deriving DecidableEq, Repr

/-- One call to an external collaborator, or the invocation of `getAIResponse`
by the per-file callback. -/
inductive Event where
  | readFileSync (path : String)
  | pdfParse (buf : Buffer)
  | extractRawText (path : String)
  | readFileUtf8 (path : String)
  | ocr (imagePath : String)
  | transcribe (videoPath : String)
  | invokeAI (text : String) (selectedModel : String)
  | gemini (model : String) (prompt : String)
  | groq (model : String) (userContent : String)
deriving DecidableEq, Repr

/-- The extraction path a collaborator call belongs to, if any. -/
def Event.extractor : Event → Option Extractor
  | .readFileSync _ => some .pdf
  | .pdfParse _ => some .pdf
  | .extractRawText _ => some .word
  | .readFileUtf8 _ => some .plainText
  | .ocr _ => some .ocr
  | .transcribe _ => some .video
  | .invokeAI _ _ => none
  | .gemini _ _ => none
  | .groq _ _ => none

/-- Whether the event is an invocation of `getAIResponse` or a request to one of
the two providers. -/
def Event.isModelQuery : Event → Bool
  | .invokeAI _ _ => true
  | .gemini _ _ => true
  | .groq _ _ => true
  | _ => false

/-- The parts of the Groq HTTP response that `getAIResponse` reads. -/
structure GroqResponse where
  ok : Bool
  status : Nat
  /-- Outcome of `await aiRes.text()`. -/
  text : Except Error String
  /-- Outcome of `await aiRes.json()` followed by `choices?.[0]?.message?.content`;
  `none` when the chain yields `undefined`. -/
  content : Except Error (Option String)

/-- How the `python` child process started by `spawn` in
`transcribeAudioFromVideo` ends. -/
inductive ChildOutcome where
  /-- The call to `spawn` itself throws, inside the promise executor. -/
  | threw (error : Error)
  /-- The child emits `'error'` (for instance `python` cannot be spawned). -/
  | errored (error : Error)
  /-- The child emits `'close'` with its exit code (`none` when it was killed by
  a signal), after writing `stdout` and `stderr`. -/
  | closed (code : Option Nat) (stdout : String) (stderr : String)
deriving DecidableEq, Repr

/-- Outcomes of the collaborator calls made on behalf of one uploaded file. -/
structure Collab where
  /-- Outcome of `fs.readFileSync(file.path)`. -/
  readFileSync : Except Error Buffer
  /-- Outcome of `(await pdfParse(dataBuffer)).text`. -/
  pdfParse : Buffer → Except Error String
  /-- Outcome of `(await mammoth.extractRawText(...)).value`. -/
  extractRawText : Except Error String
  /-- Outcome of `fs.readFileSync(file.path, 'utf-8')`. -/
  readFileUtf8 : Except Error String
  /-- Outcome of `getOcrTextFromMicroservice(file.path)`, i.e. `res.data.text`. -/
  ocr : Except Error JsText
  /-- How the child process of `transcribeAudioFromVideo(file.path)` ends. -/
  transcribe : ChildOutcome
  /-- Outcome of `model.generateContent([...])` followed by `response.response.text()`,
  for the given model name and prompt. -/
  generateContent : String → String → Except Error String
  /-- Outcome of the `fetch` to the Groq chat-completions endpoint, for the given
  model name and user message. -/
  fetchGroq : String → String → Except Error GroqResponse

/-- The prompt template of the Gemini branch of `getAIResponse`. -/
def geminiPrompt (text : String) : String :=
  "You are a helpful assistant. Given the following extracted text, help the user understand or summarize it:\n\n\""
    ++ text ++ "\""

/-- `getAIResponse(text, selectedModel)` (uploadRoutes.js lines 56-90): the value
returned or the error thrown, with the provider calls made. -/
def getAIResponse (rt : Js.Runtime) (w : Collab) (text selectedModel : String) :
    Except Error (Option String) × List Event :=
  if Js.startsWith (rt.toLowerCase selectedModel) "gemini" then
    let model := Js.orElse selectedModel "gemini-1.5-flash"
    let call := Event.gemini model (geminiPrompt text)
    match w.generateContent model (geminiPrompt text) with
    | .error e => (.error e, [call])
    | .ok reply => (.ok (some (Js.orElse reply "Sorry, no reply generated.")), [call])
  else if Js.startsWith (rt.toLowerCase selectedModel) "groq" then
    let model := Js.orElse selectedModel "llama3-8b-8192"
    let call := Event.groq model text
    match w.fetchGroq model text with
    | .error e => (.error e, [call])
    | .ok aiRes =>
      if !aiRes.ok then
        match aiRes.text with
        | .error e => (.error e, [call])
        | .ok errText =>
          (.error ("Groq API error: " ++ toString aiRes.status ++ " - " ++ errText), [call])
      else
        match aiRes.content with
        | .error e => (.error e, [call])
        | .ok content =>
          (.ok (some (Js.orElse (content.getD "") "Sorry, no reply generated.")), [call])
  else
    (.ok none, [])

/-- Sentinel content substituted when the OCR call throws. -/
def ocrFailed : String := "⚠️ OCR microservice failed."

/-- Sentinel content substituted when the video transcription throws. -/
def videoFailed : String := "⚠️ Video transcription failed."

/-- Sentinel reply substituted when `getAIResponse` throws. -/
def aiFailed : String := "⚠️ AI processing failed."

/-- The MIME type of Word documents tested by the route. -/
def docxType : String :=
  "application/vnd.openxmlformats-officedocument.wordprocessingml.document"

/-- `transcribeAudioFromVideo(videoPath)` (uploadRoutes.js lines 40-53).  The
promise resolves with the trimmed standard output when the child closes with
code 0 and rejects with the standard error (or 'Python captioning failed.')
when it closes otherwise; a throw of `spawn` inside the executor rejects it.
No `'error'` listener is registered on the child, so an `'error'` event is an
uncaught exception. -/
def transcribeAudioFromVideo (child : ChildOutcome) : Settled String :=
  match child with
  | .threw e => .rejected e
  | .errored e => .uncaught e
  | .closed code stdout stderr =>
    if code = some 0 then .fulfilled (Js.trim stdout)
    else .rejected (Js.orElse stderr "Python captioning failed.")

/-- The extractor dispatch of the per-file callback (uploadRoutes.js lines 101-137):
the final value of `parsedText`, the error thrown out of the callback, or the
exception that no `try` block catches. -/
def extractText (w : Collab) (file : UploadedFile) : Settled JsText × List Event :=
  if file.mimetype = "application/pdf" then
    match w.readFileSync with
    | .error e => (.rejected e, [.readFileSync file.path])
    | .ok dataBuffer =>
      match w.pdfParse dataBuffer with
      | .error e => (.rejected e, [.readFileSync file.path, .pdfParse dataBuffer])
      | .ok text => (.fulfilled (.str text), [.readFileSync file.path, .pdfParse dataBuffer])
  else if file.mimetype = docxType then
    match w.extractRawText with
    | .error e => (.rejected e, [.extractRawText file.path])
    | .ok value => (.fulfilled (.str value), [.extractRawText file.path])
  else if file.mimetype = "text/plain" then
    match w.readFileUtf8 with
    | .error e => (.rejected e, [.readFileUtf8 file.path])
    | .ok text => (.fulfilled (.str text), [.readFileUtf8 file.path])
  else if Js.startsWith file.mimetype "image/" then
    match w.ocr with
    | .error _ => (.fulfilled (.str ocrFailed), [.ocr file.path])
    | .ok text => (.fulfilled text, [.ocr file.path])
  else if Js.startsWith file.mimetype "video/" then
    match transcribeAudioFromVideo w.transcribe with
    | .uncaught e => (.uncaught e, [.transcribe file.path])
    | .rejected _ => (.fulfilled (.str videoFailed), [.transcribe file.path])
    | .fulfilled transcript => (.fulfilled (.str transcript), [.transcribe file.path])
  else
    (.fulfilled .null, [])

/-- The guard `parsedText && parsedText.length > 10` (line 140): the text handed
to `getAIResponse`, if any. -/
def aiInput : JsText → Option String
  | .str s => if s ≠ "" ∧ 10 < Js.length s then some s else none
  | .null => none
  | .undefined => none

/-- The model-query stage of the per-file callback (lines 139-147): the final
value of `aiReply`, and the invocation of `getAIResponse` followed by the
provider calls it made. -/
def queryModel (rt : Js.Runtime) (w : Collab) (selectedModel : String)
    (parsedText : JsText) : Option String × List Event :=
  match aiInput parsedText with
  | none => (none, [])
  | some s =>
    match getAIResponse rt w s selectedModel with
    | (.ok reply, calls) => (reply, .invokeAI s selectedModel :: calls)
    | (.error _, calls) => (some aiFailed, .invokeAI s selectedModel :: calls)

/-- One element of the `files` array of the 200 response. -/
structure FileReport where
  filename : String
  originalname : String
  mimetype : String
  size : Nat
  url : String
  content : JsText
  ai_response : Option String
deriving DecidableEq, Repr

/-- The per-file callback passed to `req.files.map` (lines 99-158): the report it
resolves to, the error it rejects with, or the uncaught exception raised while
it waits; and the collaborator calls it makes, in order, when it runs to its
end.  (`ext`, computed on line 100, is never read.) -/
def processFile (rt : Js.Runtime) (w : Collab) (selectedModel : String)
    (file : UploadedFile) : Settled FileReport × List Event :=
  match extractText w file with
  | (.rejected e, calls) => (.rejected e, calls)
  | (.uncaught e, calls) => (.uncaught e, calls)
  | (.fulfilled parsedText, calls) =>
    let ai := queryModel rt w selectedModel parsedText
    (.fulfilled
      { filename := file.filename
        originalname := file.originalname
        mimetype := file.mimetype
        size := file.size
        url := "/uploads/" ++ file.filename
        content := parsedText
        ai_response := ai.1 },
     calls ++ ai.2)

/-- The JSON response of the batch route: `files` is present only in the 200
body and `error` only in the 500 body. -/
structure Response where
  status : Nat
  message : String
  files : Option (List FileReport)
  error : Option Error
deriving DecidableEq, Repr

/-- The errors of the rejected promises, in file order. -/
def rejections {α : Type} : List (Settled α) → List Error
  | [] => []
  | .rejected e :: rest => e :: rejections rest
  | .fulfilled _ :: rest => rejections rest
  | .uncaught _ :: rest => rejections rest

/-- The values of the fulfilled promises, in file order. -/
def fulfilments {α : Type} : List (Settled α) → List α
  | [] => []
  | .rejected _ :: rest => fulfilments rest
  | .fulfilled a :: rest => a :: fulfilments rest
  | .uncaught _ :: rest => fulfilments rest

/-- The exceptions raised outside the promise chain, in file order. -/
def uncaughtErrors {α : Type} : List (Settled α) → List Error
  | [] => []
  | .rejected _ :: rest => uncaughtErrors rest
  | .fulfilled _ :: rest => uncaughtErrors rest
  | .uncaught e :: rest => e :: uncaughtErrors rest

/-- `(req.query.model || 'groq').toLowerCase()` (line 95). -/
def selectedModel (rt : Js.Runtime) (query : Option String) : String :=
  match query with
  | none => rt.toLowerCase "groq"
  | some m => rt.toLowerCase (Js.orElse m "groq")

/-- What the batch route produced: the response sent, or `none` when the process
died on an uncaught exception before any response was sent; and for each file
(in upload order) the collaborator calls its callback makes when it runs to its
end.  When the process dies, the calls actually made for a file are an initial
part of its list. -/
structure Outcome where
  response : Option Response
  calls : List (List Event)

/-- The route `router.post('/')` (lines 93-169).  The callbacks of all files are
started in upload order before anything is awaited.  An `'error'` event of a
child process is emitted on the next tick after `spawn`, ahead of the promise
reactions that would settle `Promise.all`, so when some callback meets one the
process dies with no response.  Otherwise
`Promise.all` fulfils with the reports in upload order when no callback rejects,
and rejects with the error of whichever callback rejected first in time, which
the scheduling parameter `race` selects among the rejections. -/
def uploadHandler (rt : Js.Runtime) (query : Option String) (files : List UploadedFile)
    (env : Nat → Collab) (race : Nat) : Outcome :=
  let model := selectedModel rt query
  let tasks := files.mapIdx (fun i file => processFile rt (env i) model file)
  let settled := tasks.map Prod.fst
  let calls := tasks.map Prod.snd
  match uncaughtErrors settled with
  | _ :: _ => { response := none, calls := calls }
  | [] =>
    match rejections settled with
    | [] =>
      { response :=
          some { status := 200
                 message := "Files uploaded, parsed, and processed successfully"
                 files := some (fulfilments settled)
                 error := none }
        calls := calls }
    | e :: es =>
      { response :=
          some { status := 500
                 message := "Upload failed"
                 files := none
                 error := some ((e :: es).getD (race % (e :: es).length) e) }
        calls := calls }

/-- The settled results of the per-file callbacks, in upload order. -/
def settledResults (rt : Js.Runtime) (query : Option String) (files : List UploadedFile)
    (env : Nat → Collab) : List (Settled FileReport) :=
  (files.mapIdx (fun i file => processFile rt (env i) (selectedModel rt query) file)).map
    Prod.fst

/-- The distinct extraction paths that appear in a list of collaborator calls. -/
def extractorsInvoked (calls : List Event) : List Extractor :=
  (calls.filterMap Event.extractor).dedup

/-- The report of a file for which nothing was extracted and no model queried. -/
def emptyReport (file : UploadedFile) : FileReport :=
  { filename := file.filename
    originalname := file.originalname
    mimetype := file.mimetype
    size := file.size
    url := "/uploads/" ++ file.filename
    content := .null
    ai_response := none }

/-- A collaborator environment in which every call succeeds. -/
def calm : Collab :=
  { readFileSync := .ok [37, 80, 68, 70]
    pdfParse := fun _ => .ok "Minutes of the quarterly meeting"
    extractRawText := .ok "Draft of the annual report"
    readFileUtf8 := .ok "hello world!"
    ocr := .ok (.str "Text found in the picture")
    transcribe := .closed (some 0) "Words spoken in the clip\n" ""
    generateContent := fun _ _ => .ok "A short summary."
    fetchGroq := fun _ _ =>
      .ok { ok := true, status := 200, text := .ok "", content := .ok (some "A short summary.") } }

/-- An environment in which the OCR service finds only the word "text". -/
def terse : Collab := { calm with ocr := .ok (.str "text") }

/-- Whether a collaborator call threw. -/
def throws {α : Type} : Except Error α → Bool
  | .error _ => true
  | .ok _ => false

/-- Whether the PDF, Word or plain-text extraction selected for the file throws:
reading or parsing a PDF, extracting a Word document, or reading a text file. -/
def documentExtractorThrows (w : Collab) (file : UploadedFile) : Bool :=
  (decide (file.mimetype = "application/pdf") &&
      (match w.readFileSync with
        | .error _ => true
        | .ok dataBuffer => throws (w.pdfParse dataBuffer)))
    || (decide (file.mimetype = docxType) && throws w.extractRawText)
    || (decide (file.mimetype = "text/plain") && throws w.readFileUtf8)

/-- Whether the transcription selected for the file ends in an `'error'` event of
the child process, which nothing catches. -/
def transcriptionCrashes (w : Collab) (file : UploadedFile) : Bool :=
  Js.startsWith file.mimetype "video/" &&
    (match w.transcribe with
      | .errored _ => true
      | _ => false)

/-- Whether the transcription selected for the file fails in a way the callback
catches: the child closes with a code other than 0, or `spawn` throws. -/
def transcriptionRejects (w : Collab) (file : UploadedFile) : Bool :=
  Js.startsWith file.mimetype "video/" &&
    (match w.transcribe with
      | .threw _ => true
      | .errored _ => false
      | .closed code _ _ => decide (code ≠ some 0))

/-- An environment in which the uploaded Word document is not a valid archive. -/
def corrupt : Collab :=
  { calm with extractRawText := .error "Can't find end of central directory : is this a zip file ?" }

/-- An environment in which `python` cannot be spawned. -/
def noPython : Collab := { calm with transcribe := .errored "spawn python ENOENT" }

/-- An environment in which the OCR microservice is unreachable. -/
def offline : Collab := { calm with ocr := .error "connect ECONNREFUSED 127.0.0.1:5003" }

/-- An environment in which reading the uploaded file from disk fails. -/
def unreadable : Collab :=
  { calm with
    readFileSync := .error "ENOENT: no such file or directory"
    readFileUtf8 := .error "ENOENT: no such file or directory" }

/-- A plain-text upload. -/
def notesFile : UploadedFile :=
  { filename := "1700000000000-1-notes.txt"
    originalname := "notes.txt"
    mimetype := "text/plain"
    size := 12
    path := "uploads/1700000000000-1-notes.txt" }

/-- An image upload. -/
def scanFile : UploadedFile :=
  { filename := "1700000000000-2-scan.png"
    originalname := "scan.png"
    mimetype := "image/png"
    size := 2048
    path := "uploads/1700000000000-2-scan.png" }

/-- A Word upload. -/
def reportFile : UploadedFile :=
  { filename := "1700000000000-5-report.docx"
    originalname := "report.docx"
    mimetype := "application/vnd.openxmlformats-officedocument.wordprocessingml.document"
    size := 16384
    path := "uploads/1700000000000-5-report.docx" }

/-- A video upload. -/
def clipFile : UploadedFile :=
  { filename := "1700000000000-4-clip.mp4"
    originalname := "clip.mp4"
    mimetype := "video/mp4"
    size := 8192
    path := "uploads/1700000000000-4-clip.mp4" }

/-- An upload whose declared type has no extractor. -/
def zipFile : UploadedFile :=
  { filename := "1700000000000-3-data.zip"
    originalname := "data.zip"
    mimetype := "application/zip"
    size := 4096
    path := "uploads/1700000000000-3-data.zip" }

end UploadRoutes

namespace VoiceRoutes

/-- Modelled from the spec: the turn sub-document of `models/sessionModel.js`,
which is not part of the sources; a turn carries an identifier, a role, its
content, a creation timestamp and a message type. -/
structure ChatTurn where
  id : String
  role : String
  content : String
  timestamp : Nat
  messageType : String
deriving DecidableEq, Repr

/-- Modelled from the spec: the session document of `models/sessionModel.js`,
which is not part of the sources; the route reads and writes its ordered turn
history and its last-modified timestamp. -/
structure Session where
  chatHistory : List ChatTurn
  lastEditedAt : Nat
deriving DecidableEq, Repr

/-- One call to the file system or to an external collaborator. -/
inductive Event where
  | transcribe (filePath : String)
  | findById (sessionId : String)
  | gemini (prompt : String)
  | groq (userContent : String)
  | save (sessionId : String)
  | existsSync (filePath : String)
  | unlinkSync (filePath : String)
deriving DecidableEq, Repr

/-- Whether the call is a request to one of the two language-model providers. -/
def Event.isProviderCall : Event → Bool
  | .gemini _ => true
  | .groq _ => true
  | _ => false

/-- The parts of the Groq HTTP response that the route reads. -/
structure GroqResponse where
  ok : Bool
  status : Nat
  /-- Outcome of `await aiRes.text()`. -/
  text : Except Error String
  /-- Outcome of `await aiRes.json()` followed by `choices?.[0]?.message?.content`;
  `none` when the chain yields `undefined`. -/
  content : Except Error (Option String)

/-- Outcomes of the collaborator calls of one request, and the ambient values
it reads. -/
structure Collab where
  /-- Outcome of the `axios.post` to the transcription server followed by
  `whisperRes.data.transcript`. -/
  transcribe : Except Error JsText
  /-- Error thrown by `Session.findById`, if it throws. -/
  findByIdError : Option Error
  /-- Whether `process.env.GEMINI_API_KEY` is set. -/
  geminiKeySet : Bool
  /-- Outcome of `model.generateContent([...])` followed by `result.response.text()`,
  for the given prompt. -/
  generateContent : String → Except Error String
  /-- Outcome of the `fetch` to the Groq chat-completions endpoint, for the given
  user message. -/
  fetchGroq : String → Except Error GroqResponse
  /-- Results of the two `uuidv4()` calls, in evaluation order. -/
  uuid1 : String
  uuid2 : String
  /-- Results of the three `new Date()` calls, in evaluation order. -/
  now1 : Nat
  now2 : Nat
  now3 : Nat
  /-- Error thrown by `session.save()`, if it throws; a save that throws persists
  nothing. -/
  saveError : Option Error
  /-- Whether `process.env.NODE_ENV === 'development'`. -/
  development : Bool

/-- The mutable world of one request: whether the uploaded temporary file is on
disk, and the persisted sessions by identifier. -/
structure State where
  fileExists : Bool
  store : String → Option Session

/-- The JSON bodies the route sends. -/
inductive Body where
  | error (error : String)
  | failure (error : String) (details : Option String)
  | success (transcription : String) (reply : String) (success : Bool) (modelUsed : String)
deriving DecidableEq, Repr

/-- A response: HTTP status and JSON body. -/
structure Response where
  status : Nat
  body : Body
deriving DecidableEq, Repr

/-- What one run of the route produced. -/
structure Outcome where
  response : Response
  state : State
  calls : List Event

/-- What the `try` block produced: the response returned or the error thrown. -/
structure Attempt where
  result : Except Error Response
  state : State
  calls : List Event

/-- `req.query.model || 'groq'` (line 34). -/
def selectedModel (query : Option String) : String :=
  match query with
  | none => "groq"
  | some m => Js.orElse m "groq"

/-- The transcript when the test `!transcript || transcript.trim() === ''`
(line 57) is false. -/
def spoken : JsText → Option String
  | .str s => if s = "" ∨ Js.trimIsEmpty s = true then none else some s
  | .null => none
  | .undefined => none

/-- The prompt template of the Gemini branch (lines 85-89). -/
def geminiPrompt (transcript : String) : String :=
  "You are a helpful AI assistant. The user sent this voice message:\n\nUser's message: \""
    ++ transcript ++ "\"\n\nRespond as if you are having a natural conversation."

/-- The reply substituted when a provider returns no text. -/
def noReply : String := "Sorry, I could not generate a response."

/-- Step 3 (lines 71-124) up to the assignment of `aiReply`: `none` when the
model is neither `gemini` nor `groq`, otherwise the reply or the error thrown,
with the provider calls made. -/
def askModel (rt : Js.Runtime) (w : Collab) (selectedModel transcript : String) :
    Option (Except Error String × List Event) :=
  if rt.toLowerCase selectedModel = "gemini" then
    if !w.geminiKeySet then
      some (.error "GEMINI_API_KEY is not set in environment variables", [])
    else
      match w.generateContent (geminiPrompt transcript) with
      | .error e => some (.error e, [.gemini (geminiPrompt transcript)])
      | .ok text => some (.ok (Js.orElse text noReply), [.gemini (geminiPrompt transcript)])
  else if rt.toLowerCase selectedModel = "groq" then
    match w.fetchGroq transcript with
    | .error e => some (.error e, [.groq transcript])
    | .ok aiRes =>
      if !aiRes.ok then
        match aiRes.text with
        | .error e => some (.error e, [.groq transcript])
        | .ok errText =>
          some (.error ("Groq API error: " ++ toString aiRes.status ++ " - " ++ errText),
            [.groq transcript])
      else
        match aiRes.content with
        | .error e => some (.error e, [.groq transcript])
        | .ok content => some (.ok (Js.orElse (content.getD "") noReply), [.groq transcript])
  else
    none

/-- `fs.unlinkSync(filePath)` inside the `try` block followed by `return res...`:
the unlink throws when the file is not on disk. -/
def unlinkThenReturn (filePath : String) (st : State) (calls : List Event) (res : Response) :
    Attempt :=
  if st.fileExists then
    { result := .ok res
      state := { st with fileExists := false }
      calls := calls ++ [.unlinkSync filePath] }
  else
    { result := .error ("ENOENT: no such file or directory, unlink '" ++ filePath ++ "'")
      state := st
      calls := calls ++ [.unlinkSync filePath] }

/-- The two turns pushed onto `session.chatHistory` (lines 127-142). -/
def newTurns (w : Collab) (transcript aiReply : String) : List ChatTurn :=
  [ { id := w.uuid1, role := "user", content := transcript, timestamp := w.now1,
      messageType := "voice" },
    { id := w.uuid2, role := "bot", content := aiReply, timestamp := w.now2,
      messageType := "text" } ]

/-- The session after the two turns are pushed and `lastEditedAt` is set
(lines 127-143). -/
def extended (w : Collab) (session : Session) (transcript aiReply : String) : Session :=
  { chatHistory := session.chatHistory ++ newTurns w transcript aiReply
    lastEditedAt := w.now3 }

/-- Steps 4 and 5 (lines 126-156), once `aiReply` is known. -/
def saveAndReply (sessionId filePath selectedModel : String) (w : Collab) (st : State)
    (calls : List Event) (session : Session) (transcript aiReply : String) : Attempt :=
  match w.saveError with
  | some e => { result := .error e, state := st, calls := calls ++ [.save sessionId] }
  | none =>
    unlinkThenReturn filePath
      { st with
        store := Function.update st.store sessionId (some (extended w session transcript aiReply)) }
      (calls ++ [.save sessionId])
      { status := 200, body := .success transcript aiReply true selectedModel }

/-- The `try` block of the route (lines 45-156). -/
def tryBlock (rt : Js.Runtime) (sessionId filePath selectedModel : String) (w : Collab)
    (st : State) : Attempt :=
  match w.transcribe with
  | .error e => { result := .error e, state := st, calls := [.transcribe filePath] }
  | .ok data =>
    match spoken data with
    | none =>
      unlinkThenReturn filePath st [.transcribe filePath]
        { status := 400, body := .error "No speech detected in audio" }
    | some transcript =>
      match w.findByIdError with
      | some e =>
        { result := .error e, state := st, calls := [.transcribe filePath, .findById sessionId] }
      | none =>
        match st.store sessionId with
        | none =>
          unlinkThenReturn filePath st [.transcribe filePath, .findById sessionId]
            { status := 404, body := .error "Session not found" }
        | some session =>
          match askModel rt w selectedModel transcript with
          | none =>
            unlinkThenReturn filePath st [.transcribe filePath, .findById sessionId]
              { status := 400, body := .error "Unknown model selected" }
          | some (.error e, asked) =>
            { result := .error e, state := st
              calls := [.transcribe filePath, .findById sessionId] ++ asked }
          | some (.ok aiReply, asked) =>
            saveAndReply sessionId filePath selectedModel w st
              ([.transcribe filePath, .findById sessionId] ++ asked) session transcript aiReply

/-- The 500 response sent by the `catch` block (lines 162-165). -/
def failure (w : Collab) (error : Error) : Response :=
  { status := 500
    body := .failure "Voice processing failed" (if w.development then some error else none) }

/-- The `catch` block of the route (lines 157-166), for a non-empty `filePath`. -/
def catchBlock (filePath : String) (w : Collab) (error : Error) (st : State)
    (calls : List Event) : Outcome :=
  if st.fileExists then
    { response := failure w error
      state := { st with fileExists := false }
      calls := calls ++ [.existsSync filePath, .unlinkSync filePath] }
  else
    { response := failure w error, state := st, calls := calls ++ [.existsSync filePath] }

/-- The route `router.post('/sessions/:sessionId/voice-upload')` (lines 31-167);
`file` is `req.file?.path`. -/
def voiceUpload (rt : Js.Runtime) (sessionId : String) (file : Option String)
    (query : Option String) (w : Collab) (st : State) : Outcome :=
  match file with
  | none =>
    { response := { status := 400, body := .error "No audio file uploaded" }
      state := st, calls := [] }
  | some filePath =>
    if filePath = "" then
      { response := { status := 400, body := .error "No audio file uploaded" }
        state := st, calls := [] }
    else
      let attempt := tryBlock rt sessionId filePath (selectedModel query) w st
      match attempt.result with
      | .ok res => { response := res, state := attempt.state, calls := attempt.calls }
      | .error e => catchBlock filePath w e attempt.state attempt.calls

/-- An environment in which every collaborator call succeeds. -/
def steady : Collab :=
  { transcribe := .ok (.str "What is the weather today?")
    findByIdError := none
    geminiKeySet := true
    generateContent := fun _ => .ok "It is sunny."
    fetchGroq := fun _ =>
      .ok { ok := true, status := 200, text := .ok "", content := .ok (some "It is sunny.") }
    uuid1 := "0b8f4c1e-0001"
    uuid2 := "0b8f4c1e-0002"
    now1 := 1700000000001
    now2 := 1700000000002
    now3 := 1700000000003
    saveError := none
    development := false }

/-- A world in which the uploaded audio is on disk and session "s1" is stored
with one earlier turn. -/
def ready : State :=
  { fileExists := true
    store := fun id =>
      if id = "s1" then
        some { chatHistory :=
                 [{ id := "0b8f4c1e-0000", role := "user", content := "Hello",
                    timestamp := 1690000000000, messageType := "text" }]
               lastEditedAt := 1690000000000 }
      else none }

end VoiceRoutes

/-! ## Auxiliary facts about the batch route -/

namespace UploadRoutes

theorem toLowerCase_groq (rt : Js.Runtime) : rt.toLowerCase "groq" = "groq" := by
  rw [rt.toLowerCase_ascii "groq" (by decide)]
  decide

theorem toLowerCase_empty (rt : Js.Runtime) : rt.toLowerCase "" = "" := by
  rw [rt.toLowerCase_ascii "" (by decide)]
  decide

theorem selectedModel_none (rt : Js.Runtime) : selectedModel rt none = "groq" :=
  toLowerCase_groq rt

theorem settled_of_all_fulfilled {α : Type} (l : List (Settled α))
    (hu : uncaughtErrors l = []) (h : rejections l = []) :
    l = (fulfilments l).map Settled.fulfilled := by
  induction l with
  | nil => rfl
  | cons x rest ih =>
    cases x with
    | rejected e => simp [rejections] at h
    | uncaught e => simp [uncaughtErrors] at hu
    | fulfilled a =>
      simp only [rejections] at h
      simp only [uncaughtErrors] at hu
      simp only [fulfilments, List.map_cons]
      rw [← ih hu h]

theorem rejections_ne_nil_of_mem {α : Type} (l : List (Settled α)) (e : Error)
    (h : Settled.rejected e ∈ l) : rejections l ≠ [] := by
  induction l with
  | nil => simp at h
  | cons x rest ih =>
    cases x with
    | rejected e1 => simp [rejections]
    | fulfilled a =>
      simp only [rejections]
      apply ih
      simpa using h
    | uncaught e1 =>
      simp only [rejections]
      apply ih
      simpa using h

theorem mem_of_mem_rejections {α : Type} (l : List (Settled α)) (e : Error)
    (h : e ∈ rejections l) : Settled.rejected e ∈ l := by
  induction l with
  | nil => simp [rejections] at h
  | cons x rest ih =>
    cases x with
    | rejected e1 =>
      simp only [rejections, List.mem_cons] at h
      rcases h with h | h
      · simp [h]
      · exact List.mem_cons_of_mem _ (ih h)
    | fulfilled a =>
      simp only [rejections] at h
      exact List.mem_cons_of_mem _ (ih h)
    | uncaught e1 =>
      simp only [rejections] at h
      exact List.mem_cons_of_mem _ (ih h)

theorem uncaughtErrors_ne_nil_of_mem {α : Type} (l : List (Settled α)) (e : Error)
    (h : Settled.uncaught e ∈ l) : uncaughtErrors l ≠ [] := by
  induction l with
  | nil => simp at h
  | cons x rest ih =>
    cases x with
    | uncaught e1 => simp [uncaughtErrors]
    | fulfilled a =>
      simp only [uncaughtErrors]
      apply ih
      simpa using h
    | rejected e1 =>
      simp only [uncaughtErrors]
      apply ih
      simpa using h

theorem mem_of_mem_uncaughtErrors {α : Type} (l : List (Settled α)) (e : Error)
    (h : e ∈ uncaughtErrors l) : Settled.uncaught e ∈ l := by
  induction l with
  | nil => simp [uncaughtErrors] at h
  | cons x rest ih =>
    cases x with
    | uncaught e1 =>
      simp only [uncaughtErrors, List.mem_cons] at h
      rcases h with h | h
      · simp [h]
      · exact List.mem_cons_of_mem _ (ih h)
    | fulfilled a =>
      simp only [uncaughtErrors] at h
      exact List.mem_cons_of_mem _ (ih h)
    | rejected e1 =>
      simp only [uncaughtErrors] at h
      exact List.mem_cons_of_mem _ (ih h)

/-- The per-file call lists of the route are those of the per-file callbacks. -/
theorem uploadHandler_calls (rt : Js.Runtime) (query : Option String)
    (files : List UploadedFile) (env : Nat → Collab) (race : Nat) (i : Nat) :
    (uploadHandler rt query files env race).calls[i]? =
      files[i]?.map (fun file => (processFile rt (env i) (selectedModel rt query) file).2) := by
  unfold uploadHandler
  simp only []
  split
  · simp [List.getElem?_mapIdx, Option.map_map, Function.comp_def]
  · split <;> simp [List.getElem?_mapIdx, Option.map_map, Function.comp_def]

theorem settledResults_getElem? (rt : Js.Runtime) (query : Option String)
    (files : List UploadedFile) (env : Nat → Collab) (i : Nat) :
    (settledResults rt query files env)[i]? =
      files[i]?.map (fun file => (processFile rt (env i) (selectedModel rt query) file).1) := by
  simp [settledResults, List.getElem?_mapIdx, Option.map_map, Function.comp_def]

/-- The route dies without a response when some callback meets an uncaught
exception. -/
theorem uploadHandler_died (rt : Js.Runtime) (query : Option String)
    (files : List UploadedFile) (env : Nat → Collab) (race : Nat)
    (h : uncaughtErrors (settledResults rt query files env) ≠ []) :
    (uploadHandler rt query files env race).response = none := by
  unfold settledResults at h
  unfold uploadHandler
  simp only []
  split
  · rfl
  · rename_i hu
    exact absurd hu h

/-- The route answers 200 with a `files` array when every callback resolves. -/
theorem uploadHandler_ok (rt : Js.Runtime) (query : Option String)
    (files : List UploadedFile) (env : Nat → Collab) (race : Nat)
    (hu : uncaughtErrors (settledResults rt query files env) = [])
    (h : rejections (settledResults rt query files env) = []) :
    (uploadHandler rt query files env race).response =
      some { status := 200
             message := "Files uploaded, parsed, and processed successfully"
             files := some (fulfilments (settledResults rt query files env))
             error := none } := by
  unfold settledResults at h hu ⊢
  unfold uploadHandler
  simp only []
  split
  · rename_i e es hu1
    rw [hu] at hu1
    simp at hu1
  · split
    · rfl
    · rename_i hrej
      rw [h] at hrej
      simp at hrej

/-- The route answers 500 without a `files` array when some callback rejects and
none meets an uncaught exception. -/
theorem uploadHandler_failed (rt : Js.Runtime) (query : Option String)
    (files : List UploadedFile) (env : Nat → Collab) (race : Nat)
    (hu : uncaughtErrors (settledResults rt query files env) = [])
    (h : rejections (settledResults rt query files env) ≠ []) :
    ∃ e, e ∈ rejections (settledResults rt query files env) ∧
      (uploadHandler rt query files env race).response =
        some { status := 500, message := "Upload failed", files := none, error := some e } := by
  unfold settledResults at h hu ⊢
  unfold uploadHandler
  simp only []
  split
  · rename_i e es hu1
    rw [hu] at hu1
    simp at hu1
  · split
    · rename_i hrej
      exact absurd hrej h
    · rename_i e es hrej
      refine ⟨(e :: es).getD (race % (e :: es).length) e, ?_, rfl⟩
      rw [hrej]
      have hlt : race % (e :: es).length < (e :: es).length :=
        Nat.mod_lt _ (by simp)
      rw [List.getD_eq_getElem _ _ hlt]
      exact List.getElem_mem _

/-- When the route answers with a `files` array, its entries are the reports the
per-file callbacks resolved to. -/
theorem uploadHandler_files (rt : Js.Runtime) (query : Option String)
    (files : List UploadedFile) (env : Nat → Collab) (race : Nat) (resp : Response)
    (reports : List FileReport)
    (hresp : (uploadHandler rt query files env race).response = some resp)
    (h : resp.files = some reports) (i : Nat) :
    reports[i]?.map Settled.fulfilled =
      files[i]?.map (fun file => (processFile rt (env i) (selectedModel rt query) file).1) := by
  rw [← settledResults_getElem?]
  by_cases hu : uncaughtErrors (settledResults rt query files env) = []
  · by_cases hrej : rejections (settledResults rt query files env) = []
    · rw [uploadHandler_ok rt query files env race hu hrej] at hresp
      simp only [Option.some.injEq] at hresp
      subst hresp
      simp only [Option.some.injEq] at h
      have := settled_of_all_fulfilled _ hu hrej
      rw [h] at this
      rw [this]
      simp
    · obtain ⟨e, _, he⟩ := uploadHandler_failed rt query files env race hu hrej
      rw [he] at hresp
      simp only [Option.some.injEq] at hresp
      subst hresp
      simp at h
  · rw [uploadHandler_died rt query files env race hu] at hresp
    exact Option.noConfusion hresp

/-- The provider calls of `getAIResponse` depend only on the selector: one Gemini
request, one Groq request, or none. -/
theorem getAIResponse_calls (rt : Js.Runtime) (w : Collab) (text s : String) :
    (getAIResponse rt w text s).2 =
      if Js.startsWith (rt.toLowerCase s) "gemini" then
        [Event.gemini (Js.orElse s "gemini-1.5-flash") (geminiPrompt text)]
      else if Js.startsWith (rt.toLowerCase s) "groq" then
        [Event.groq (Js.orElse s "llama3-8b-8192") text]
      else [] := by
  unfold getAIResponse
  by_cases hg : Js.startsWith (rt.toLowerCase s) "gemini" = true
  · simp only [hg, if_true]
    cases w.generateContent (Js.orElse s "gemini-1.5-flash") (geminiPrompt text) <;> rfl
  · by_cases hq : Js.startsWith (rt.toLowerCase s) "groq" = true
    · simp only [hg, hq, if_true, if_false]
      cases w.fetchGroq (Js.orElse s "llama3-8b-8192") text with
      | error e => rfl
      | ok aiRes =>
        simp only []
        by_cases hok : aiRes.ok = true
        · simp only [hok, Bool.not_true, if_false]
          cases aiRes.content <;> rfl
        · simp only [Bool.not_eq_true] at hok
          simp only [hok, Bool.not_false, if_true]
          cases aiRes.text <;> rfl
    · simp [hg, hq]

/-- With a selector that matches neither prefix, `getAIResponse` returns `null`. -/
theorem getAIResponse_unrecognized (rt : Js.Runtime) (w : Collab) (text s : String)
    (hg : Js.startsWith (rt.toLowerCase s) "gemini" = false)
    (hq : Js.startsWith (rt.toLowerCase s) "groq" = false) :
    getAIResponse rt w text s = (.ok none, []) := by
  unfold getAIResponse
  simp [hg, hq]

/-- C3: for every text and selector `s`, `getAIResponse(text, s)` sends exactly one
request to Gemini iff the lower-cased selector starts with "gemini", exactly one
request to Groq iff it does not start with "gemini" and starts with "groq", and
returns `null` without throwing and without any provider call iff neither prefix
matches; "gemini-pro" goes to Gemini, "groq-whatever" to Groq, "openai" yields
`null`. -/
theorem getAIResponse_routes_by_prefix (rt : Js.Runtime) (w : Collab) (text s : String) :
    ((getAIResponse rt w text s).2 =
        [Event.gemini (Js.orElse s "gemini-1.5-flash") (geminiPrompt text)] ↔
      Js.startsWith (rt.toLowerCase s) "gemini" = true) ∧
    ((getAIResponse rt w text s).2 = [Event.groq (Js.orElse s "llama3-8b-8192") text] ↔
      (Js.startsWith (rt.toLowerCase s) "gemini" = false ∧
        Js.startsWith (rt.toLowerCase s) "groq" = true)) ∧
    (getAIResponse rt w text s = (.ok none, []) ↔
      (Js.startsWith (rt.toLowerCase s) "gemini" = false ∧
        Js.startsWith (rt.toLowerCase s) "groq" = false)) ∧
    (getAIResponse rt w text "gemini-pro").2 =
      [Event.gemini "gemini-pro" (geminiPrompt text)] ∧
    (getAIResponse rt w text "groq-whatever").2 = [Event.groq "groq-whatever" text] ∧
    getAIResponse rt w text "openai" = (.ok none, []) := by
  have hpro : rt.toLowerCase "gemini-pro" = "gemini-pro" := by
    rw [rt.toLowerCase_ascii "gemini-pro" (by decide)]; decide
  have hwhat : rt.toLowerCase "groq-whatever" = "groq-whatever" := by
    rw [rt.toLowerCase_ascii "groq-whatever" (by decide)]; decide
  have hopen : rt.toLowerCase "openai" = "openai" := by
    rw [rt.toLowerCase_ascii "openai" (by decide)]; decide
  refine ⟨?_, ?_, ?_, ?_, ?_, ?_⟩
  · rw [getAIResponse_calls]
    by_cases hg : Js.startsWith (rt.toLowerCase s) "gemini" = true
    · simp [hg]
    · by_cases hq : Js.startsWith (rt.toLowerCase s) "groq" = true <;> simp [hg, hq]
  · rw [getAIResponse_calls]
    by_cases hg : Js.startsWith (rt.toLowerCase s) "gemini" = true
    · simp [hg]
    · by_cases hq : Js.startsWith (rt.toLowerCase s) "groq" = true <;> simp [hg, hq]
  · constructor
    · intro h
      have h2 : (getAIResponse rt w text s).2 = [] := by rw [h]
      rw [getAIResponse_calls] at h2
      by_cases hg : Js.startsWith (rt.toLowerCase s) "gemini" = true
      · simp [hg] at h2
      · by_cases hq : Js.startsWith (rt.toLowerCase s) "groq" = true
        · simp [hg, hq] at h2
        · simp [hg, hq]
    · rintro ⟨hg, hq⟩
      exact getAIResponse_unrecognized rt w text s hg hq
  · rw [getAIResponse_calls, hpro]
    have h : Js.startsWith "gemini-pro" "gemini" = true := by decide
    have h2 : Js.orElse "gemini-pro" "gemini-1.5-flash" = "gemini-pro" := by decide
    simp [h, h2]
  · rw [getAIResponse_calls, hwhat]
    have h1 : Js.startsWith "groq-whatever" "gemini" = false := by decide
    have h : Js.startsWith "groq-whatever" "groq" = true := by decide
    have h2 : Js.orElse "groq-whatever" "llama3-8b-8192" = "groq-whatever" := by decide
    simp [h, h1, h2]
  · apply getAIResponse_unrecognized rt w text "openai"
    · rw [hopen]; decide
    · rw [hopen]; decide

end UploadRoutes

namespace UploadRoutes

theorem processFile_calls (rt : Js.Runtime) (w : Collab) (m : String) (f : UploadedFile) :
    (processFile rt w m f).2 =
      (extractText w f).2 ++
        (match (extractText w f).1 with
          | .fulfilled parsedText => (queryModel rt w m parsedText).2
          | .rejected _ => []
          | .uncaught _ => []) := by
  unfold processFile
  rcases h : extractText w f with ⟨res, calls⟩
  cases res <;> simp

theorem processFile_result (rt : Js.Runtime) (w : Collab) (m : String) (f : UploadedFile) :
    (processFile rt w m f).1 =
      (match (extractText w f).1 with
        | .fulfilled parsedText =>
          .fulfilled
            { filename := f.filename
              originalname := f.originalname
              mimetype := f.mimetype
              size := f.size
              url := "/uploads/" ++ f.filename
              content := parsedText
              ai_response := (queryModel rt w m parsedText).1 }
        | .rejected e => .rejected e
        | .uncaught e => .uncaught e) := by
  unfold processFile
  rcases h : extractText w f with ⟨res, calls⟩
  cases res <;> simp

theorem queryModel_of_no_input (rt : Js.Runtime) (w : Collab) (m : String)
    (parsedText : JsText) (h : aiInput parsedText = none) :
    queryModel rt w m parsedText = (none, []) := by
  unfold queryModel
  rw [h]

theorem queryModel_of_input (rt : Js.Runtime) (w : Collab) (m : String)
    (parsedText : JsText) (s : String) (h : aiInput parsedText = some s) :
    (queryModel rt w m parsedText).2 = Event.invokeAI s m :: (getAIResponse rt w s m).2 ∧
    (queryModel rt w m parsedText).1 =
      (match (getAIResponse rt w s m).1 with
        | .ok reply => reply
        | .error _ => some aiFailed) := by
  unfold queryModel
  rw [h]
  rcases hres : getAIResponse rt w s m with ⟨res, calls⟩
  cases res <;> simp [hres]

theorem aiInput_eq_some (parsedText : JsText) (s : String) (h : aiInput parsedText = some s) :
    parsedText = .str s ∧ 10 < Js.length s := by
  cases parsedText with
  | null => simp [aiInput] at h
  | undefined => simp [aiInput] at h
  | str t =>
    simp only [aiInput] at h
    split at h
    · rename_i hc
      simp only [Option.some.injEq] at h
      subst h
      exact ⟨rfl, hc.2⟩
    · simp at h

theorem aiInput_of_long (s : String) (h : 10 < Js.length s) : aiInput (.str s) = some s := by
  have hne : s ≠ "" := by
    intro h0
    subst h0
    simp [Js.length] at h
  simp [aiInput, hne, h]

theorem aiInput_of_short (parsedText : JsText)
    (h : parsedText = .null ∨ parsedText = .undefined ∨
      ∃ s, parsedText = .str s ∧ Js.length s ≤ 10) : aiInput parsedText = none := by
  rcases h with h | h | ⟨s, h, hs⟩
  · subst h; rfl
  · subst h; rfl
  · subst h
    have : ¬ 10 < Js.length s := by omega
    simp [aiInput, this]

theorem extractText_no_provider (w : Collab) (f : UploadedFile) :
    ∀ e ∈ (extractText w f).2, e.isModelQuery = false := by
  unfold extractText
  intro e he
  repeat' split at he
  all_goals simp at he
  all_goals first
    | (subst he; rfl)
    | (rcases he with rfl | rfl <;> rfl)

/-- An entry of the `files` array is the report its file's callback resolved to. -/
theorem report_of_response (rt : Js.Runtime) (query : Option String)
    (files : List UploadedFile) (env : Nat → Collab) (race : Nat) (resp : Response)
    (reports : List FileReport) (i : Nat) (f : UploadedFile)
    (hresp : (uploadHandler rt query files env race).response = some resp)
    (h : resp.files = some reports) (hf : files[i]? = some f) :
    ∃ r, reports[i]? = some r ∧
      (processFile rt (env i) (selectedModel rt query) f).1 = .fulfilled r := by
  have h1 := uploadHandler_files rt query files env race resp reports hresp h i
  rw [hf] at h1
  simp only [Option.map_some'] at h1
  cases hr : reports[i]? with
  | none => rw [hr] at h1; simp at h1
  | some r =>
    rw [hr] at h1
    simp only [Option.map_some', Option.some.injEq] at h1
    exact ⟨r, rfl, h1.symm⟩

/-- C1: in the batch route, for a file whose extracted text is null, undefined,
empty or of length at most 10, `getAIResponse` is not invoked, no provider is
called, and the file is reported with `ai_response = null`; and a report with a
non-null `ai_response` has a string content of length greater than 10. -/
theorem upload_model_query_guard (rt : Js.Runtime) (query : Option String)
    (files : List UploadedFile) (env : Nat → Collab) (race : Nat) (i : Nat)
    (f : UploadedFile) (parsedText : JsText)
    (hf : files[i]? = some f) (hx : (extractText (env i) f).1 = .fulfilled parsedText) :
    ((parsedText = .null ∨ parsedText = .undefined ∨
          ∃ s, parsedText = .str s ∧ Js.length s ≤ 10) →
      (∃ t, (uploadHandler rt query files env race).calls[i]? = some t ∧
        ∀ e ∈ t, e.isModelQuery = false) ∧
      (∀ resp reports, (uploadHandler rt query files env race).response = some resp →
        resp.files = some reports →
        ∃ r, reports[i]? = some r ∧ r.content = parsedText ∧ r.ai_response = none)) ∧
    (∀ resp reports r, (uploadHandler rt query files env race).response = some resp →
      resp.files = some reports → reports[i]? = some r → r.ai_response ≠ none →
        ∃ s, r.content = .str s ∧ 10 < Js.length s) := by
  have hres := processFile_result rt (env i) (selectedModel rt query) f
  have hcalls := processFile_calls rt (env i) (selectedModel rt query) f
  rw [hx] at hres hcalls
  simp only [] at hres hcalls
  constructor
  · intro hshort
    have hq := queryModel_of_no_input rt (env i) (selectedModel rt query) parsedText
      (aiInput_of_short parsedText hshort)
    rw [hq] at hres hcalls
    constructor
    · refine ⟨_, by rw [uploadHandler_calls, hf]; rfl, ?_⟩
      show ∀ e ∈ (processFile rt (env i) (selectedModel rt query) f).2, e.isModelQuery = false
      rw [hcalls, List.append_nil]
      exact extractText_no_provider (env i) f
    · intro resp reports hresp hrep
      obtain ⟨r, hr, hp⟩ :=
        report_of_response rt query files env race resp reports i f hresp hrep hf
      rw [hres] at hp
      simp only [Settled.fulfilled.injEq] at hp
      subst hp
      exact ⟨_, hr, rfl, rfl⟩
  · intro resp reports r hresp hrep hr hai
    obtain ⟨r1, hr1, hp⟩ :=
      report_of_response rt query files env race resp reports i f hresp hrep hf
    rw [hr] at hr1
    simp only [Option.some.injEq] at hr1
    subst hr1
    rw [hres] at hp
    simp only [Settled.fulfilled.injEq] at hp
    subst hp
    simp only [] at hai ⊢
    cases hin : aiInput parsedText with
    | none =>
      rw [queryModel_of_no_input _ _ _ _ hin] at hai
      exact absurd rfl hai
    | some s =>
      obtain ⟨h1, h2⟩ := aiInput_eq_some parsedText s hin
      exact ⟨s, h1, h2⟩

/-- Witness for C1: a one-file batch whose image yields the four-character text
"text". -/
theorem upload_model_query_guard_witness :
    [scanFile][0]? = some scanFile ∧
    (extractText terse scanFile).1 = .fulfilled (.str "text") ∧
    (((JsText.str "text" = .null ∨ JsText.str "text" = .undefined ∨
          ∃ s, JsText.str "text" = .str s ∧ Js.length s ≤ 10) →
      (∃ t, (uploadHandler Js.asciiRuntime none [scanFile] (fun _ => terse) 0).calls[0]? =
          some t ∧
        ∀ e ∈ t, e.isModelQuery = false) ∧
      (∀ resp reports,
        (uploadHandler Js.asciiRuntime none [scanFile] (fun _ => terse) 0).response =
          some resp →
        resp.files = some reports →
        ∃ r, reports[0]? = some r ∧ r.content = .str "text" ∧ r.ai_response = none)) ∧
    (∀ resp reports r,
      (uploadHandler Js.asciiRuntime none [scanFile] (fun _ => terse) 0).response =
        some resp →
      resp.files = some reports → reports[0]? = some r → r.ai_response ≠ none →
        ∃ s, r.content = .str s ∧ 10 < Js.length s)) :=
  ⟨rfl, rfl,
    upload_model_query_guard Js.asciiRuntime none [scanFile] (fun _ => terse) 0 0
      scanFile (.str "text") rfl rfl⟩

theorem getAIResponse_calls_extractor (rt : Js.Runtime) (w : Collab) (text s : String) :
    (getAIResponse rt w text s).2.filterMap Event.extractor = [] := by
  rw [getAIResponse_calls]
  split
  · rfl
  · split <;> rfl

theorem queryModel_calls_extractor (rt : Js.Runtime) (w : Collab) (m : String)
    (parsedText : JsText) :
    (queryModel rt w m parsedText).2.filterMap Event.extractor = [] := by
  cases hin : aiInput parsedText with
  | none => rw [queryModel_of_no_input _ _ _ _ hin]; rfl
  | some s =>
    rw [(queryModel_of_input rt w m parsedText s hin).1, List.filterMap_cons]
    exact getAIResponse_calls_extractor rt w s m

theorem extractorsInvoked_processFile (rt : Js.Runtime) (w : Collab) (m : String)
    (f : UploadedFile) :
    extractorsInvoked (processFile rt w m f).2 = extractorsInvoked (extractText w f).2 := by
  rw [processFile_calls]
  unfold extractorsInvoked
  rw [List.filterMap_append]
  cases (extractText w f).1 with
  | rejected e => simp
  | uncaught e => simp
  | fulfilled parsedText => simp [queryModel_calls_extractor]

theorem not_document_of_image (mimetype : String) (h : Js.startsWith mimetype "image/" = true) :
    mimetype ≠ "application/pdf" ∧ mimetype ≠ docxType ∧ mimetype ≠ "text/plain" := by
  refine ⟨?_, ?_, ?_⟩ <;> intro h0 <;> rw [h0] at h <;> revert h <;> decide

theorem not_document_of_video (mimetype : String) (h : Js.startsWith mimetype "video/" = true) :
    mimetype ≠ "application/pdf" ∧ mimetype ≠ docxType ∧ mimetype ≠ "text/plain" ∧
      Js.startsWith mimetype "image/" = false := by
  refine ⟨?_, ?_, ?_, ?_⟩
  · intro h0; rw [h0] at h; revert h; decide
  · intro h0; rw [h0] at h; revert h; decide
  · intro h0; rw [h0] at h; revert h; decide
  · unfold Js.startsWith at h ⊢
    match hd : mimetype.data with
    | [] => rfl
    | c :: rest =>
      rw [hd] at h
      by_cases hc : c = 'v'
      · subst hc; rfl
      · exfalso
        have : ("video/".data.isPrefixOf (c :: rest)) = false := by
          show (('v' :: "ideo/".data).isPrefixOf (c :: rest)) = false
          simp [List.isPrefixOf, Ne.symm hc]
        rw [this] at h
        exact Bool.noConfusion h

theorem extractText_pdf (w : Collab) (f : UploadedFile) (h : f.mimetype = "application/pdf") :
    extractorsInvoked (extractText w f).2 = [.pdf] := by
  unfold extractText
  simp only [h, if_true]
  cases w.readFileSync with
  | error e => rfl
  | ok buf =>
    simp only []
    cases w.pdfParse buf <;> rfl

theorem extractText_word (w : Collab) (f : UploadedFile) (h : f.mimetype = docxType) :
    extractorsInvoked (extractText w f).2 = [.word] := by
  unfold extractText
  have h0 : ¬ docxType = "application/pdf" := by decide
  simp only [h, h0, if_true, if_false]
  cases w.extractRawText <;> rfl

theorem extractText_plain (w : Collab) (f : UploadedFile) (h : f.mimetype = "text/plain") :
    extractorsInvoked (extractText w f).2 = [.plainText] := by
  unfold extractText
  have h0 : ¬ "text/plain" = "application/pdf" := by decide
  have h1 : ¬ "text/plain" = docxType := by decide
  simp only [h, h0, h1, if_true, if_false]
  cases w.readFileUtf8 <;> rfl

theorem extractText_image (w : Collab) (f : UploadedFile)
    (h : Js.startsWith f.mimetype "image/" = true) :
    extractText w f =
      ((match w.ocr with
        | .error _ => .fulfilled (.str ocrFailed)
        | .ok text => .fulfilled text), [.ocr f.path]) := by
  obtain ⟨h0, h1, h2⟩ := not_document_of_image f.mimetype h
  unfold extractText
  simp only [h, h0, h1, h2, if_true, if_false]
  cases w.ocr <;> rfl

theorem extractText_video (w : Collab) (f : UploadedFile)
    (h : Js.startsWith f.mimetype "video/" = true) :
    extractText w f =
      ((match transcribeAudioFromVideo w.transcribe with
        | .uncaught e => .uncaught e
        | .rejected _ => .fulfilled (.str videoFailed)
        | .fulfilled transcript => .fulfilled (.str transcript)), [.transcribe f.path]) := by
  obtain ⟨h0, h1, h2, h3⟩ := not_document_of_video f.mimetype h
  unfold extractText
  simp only [h, h0, h1, h2, h3, if_true, if_false]
  cases transcribeAudioFromVideo w.transcribe <;> simp

theorem extractText_other (w : Collab) (f : UploadedFile)
    (h0 : f.mimetype ≠ "application/pdf") (h1 : f.mimetype ≠ docxType)
    (h2 : f.mimetype ≠ "text/plain") (h3 : Js.startsWith f.mimetype "image/" = false)
    (h4 : Js.startsWith f.mimetype "video/" = false) :
    extractText w f = (.fulfilled .null, []) := by
  unfold extractText
  simp [h0, h1, h2, h3, h4]

/-- C2: for every uploaded file, the dispatch of the batch route uses exactly one
extraction path when the declared type is `application/pdf`, the DOCX type,
`text/plain`, `image/*` or `video/*`; for every other declared type it makes no
collaborator call at all, the callback resolves without error, and the file is
reported with `content = null` and `ai_response = null`. -/
theorem upload_dispatch_exactly_one (rt : Js.Runtime) (query : Option String)
    (files : List UploadedFile) (env : Nat → Collab) (race : Nat) (i : Nat)
    (f : UploadedFile) (hf : files[i]? = some f) :
    ∃ t, (uploadHandler rt query files env race).calls[i]? = some t ∧
      (f.mimetype = "application/pdf" → extractorsInvoked t = [.pdf]) ∧
      (f.mimetype = docxType → extractorsInvoked t = [.word]) ∧
      (f.mimetype = "text/plain" → extractorsInvoked t = [.plainText]) ∧
      (Js.startsWith f.mimetype "image/" = true → extractorsInvoked t = [.ocr]) ∧
      (Js.startsWith f.mimetype "video/" = true → extractorsInvoked t = [.video]) ∧
      ((f.mimetype ≠ "application/pdf" ∧ f.mimetype ≠ docxType ∧ f.mimetype ≠ "text/plain" ∧
          Js.startsWith f.mimetype "image/" = false ∧
          Js.startsWith f.mimetype "video/" = false) →
        t = [] ∧
        (processFile rt (env i) (selectedModel rt query) f).1 = .fulfilled (emptyReport f) ∧
        ∀ resp reports, (uploadHandler rt query files env race).response = some resp →
          resp.files = some reports → reports[i]? = some (emptyReport f)) := by
  refine ⟨(processFile rt (env i) (selectedModel rt query) f).2,
    by rw [uploadHandler_calls, hf]; rfl, ?_, ?_, ?_, ?_, ?_, ?_⟩
  · intro h
    rw [extractorsInvoked_processFile]
    exact extractText_pdf _ f h
  · intro h
    rw [extractorsInvoked_processFile]
    exact extractText_word _ f h
  · intro h
    rw [extractorsInvoked_processFile]
    exact extractText_plain _ f h
  · intro h
    rw [extractorsInvoked_processFile, extractText_image _ f h]
    rfl
  · intro h
    rw [extractorsInvoked_processFile, extractText_video _ f h]
    rfl
  · rintro ⟨h0, h1, h2, h3, h4⟩
    have hx := extractText_other (env i) f h0 h1 h2 h3 h4
    have hres := processFile_result rt (env i) (selectedModel rt query) f
    have hcalls := processFile_calls rt (env i) (selectedModel rt query) f
    rw [hx] at hres hcalls
    simp only [] at hres hcalls
    rw [queryModel_of_no_input rt (env i) (selectedModel rt query) .null rfl] at hres hcalls
    refine ⟨hcalls, hres, ?_⟩
    intro resp reports hresp hrep
    obtain ⟨r, hr, hp⟩ :=
      report_of_response rt query files env race resp reports i f hresp hrep hf
    rw [hres] at hp
    simp only [Settled.fulfilled.injEq] at hp
    rw [hr, ← hp]
    rfl

/-- Witness for C2: a one-file batch holding a zip archive. -/
theorem upload_dispatch_exactly_one_witness :
    [zipFile][0]? = some zipFile ∧
    ∃ t, (uploadHandler Js.asciiRuntime none [zipFile] (fun _ => calm) 0).calls[0]? = some t ∧
      (zipFile.mimetype = "application/pdf" → extractorsInvoked t = [.pdf]) ∧
      (zipFile.mimetype = docxType → extractorsInvoked t = [.word]) ∧
      (zipFile.mimetype = "text/plain" → extractorsInvoked t = [.plainText]) ∧
      (Js.startsWith zipFile.mimetype "image/" = true → extractorsInvoked t = [.ocr]) ∧
      (Js.startsWith zipFile.mimetype "video/" = true → extractorsInvoked t = [.video]) ∧
      ((zipFile.mimetype ≠ "application/pdf" ∧ zipFile.mimetype ≠ docxType ∧
          zipFile.mimetype ≠ "text/plain" ∧
          Js.startsWith zipFile.mimetype "image/" = false ∧
          Js.startsWith zipFile.mimetype "video/" = false) →
        t = [] ∧
        (processFile Js.asciiRuntime calm (selectedModel Js.asciiRuntime none) zipFile).1 =
          .fulfilled (emptyReport zipFile) ∧
        ∀ resp reports,
          (uploadHandler Js.asciiRuntime none [zipFile] (fun _ => calm) 0).response =
            some resp →
          resp.files = some reports → reports[0]? = some (emptyReport zipFile)) :=
  ⟨rfl, upload_dispatch_exactly_one Js.asciiRuntime none [zipFile] (fun _ => calm) 0 0
    zipFile rfl⟩

end UploadRoutes

namespace UploadRoutes

theorem transcribe_outcome (child : ChildOutcome) :
    (∃ e, child = .errored e ∧ transcribeAudioFromVideo child = .uncaught e) ∨
    ((∀ e, child ≠ .errored e) ∧
      ((∃ e, transcribeAudioFromVideo child = .rejected e) ∨
        ∃ t, transcribeAudioFromVideo child = .fulfilled t)) := by
  cases child with
  | threw e => exact Or.inr ⟨fun _ h => ChildOutcome.noConfusion h, Or.inl ⟨e, rfl⟩⟩
  | errored e => exact Or.inl ⟨e, rfl, rfl⟩
  | closed code stdout stderr =>
    refine Or.inr ⟨fun _ h => ChildOutcome.noConfusion h, ?_⟩
    by_cases hc : code = some 0
    · exact Or.inr ⟨Js.trim stdout, by simp [transcribeAudioFromVideo, hc]⟩
    · exact Or.inl ⟨Js.orElse stderr "Python captioning failed.",
        by simp [transcribeAudioFromVideo, hc]⟩

/-- The per-file callback rejects exactly when the document extraction selected
for the file throws. -/
theorem extractText_rejects_iff (w : Collab) (f : UploadedFile) :
    (∃ e, (extractText w f).1 = .rejected e) ↔ documentExtractorThrows w f = true := by
  by_cases h0 : f.mimetype = "application/pdf"
  · have hd : ¬ "application/pdf" = docxType := by decide
    have hp : ¬ "application/pdf" = "text/plain" := by decide
    unfold extractText documentExtractorThrows
    simp only [h0, hd, hp, if_true]
    cases w.readFileSync with
    | error e => simp
    | ok buf =>
      simp only []
      cases w.pdfParse buf <;> simp [throws]
  · by_cases h1 : f.mimetype = docxType
    · have hp : ¬ docxType = "text/plain" := by decide
      have hd : ¬ docxType = "application/pdf" := by decide
      unfold extractText documentExtractorThrows
      simp only [h1, hd, hp, if_true, if_false]
      cases w.extractRawText <;> simp [throws]
    · by_cases h2 : f.mimetype = "text/plain"
      · have hp : ¬ "text/plain" = docxType := by decide
        have hd : ¬ "text/plain" = "application/pdf" := by decide
        unfold extractText documentExtractorThrows
        simp only [h2, hd, hp, if_true, if_false]
        cases w.readFileUtf8 <;> simp [throws]
      · have hdoc : documentExtractorThrows w f = false := by
          simp [documentExtractorThrows, h0, h1, h2]
        rw [hdoc]
        simp only [Bool.false_eq_true, iff_false, not_exists]
        intro e
        by_cases h3 : Js.startsWith f.mimetype "image/" = true
        · rw [extractText_image w f h3]
          cases w.ocr <;> simp
        · by_cases h4 : Js.startsWith f.mimetype "video/" = true
          · rw [extractText_video w f h4]
            cases transcribeAudioFromVideo w.transcribe <;> simp
          · rw [extractText_other w f h0 h1 h2 (by simpa using h3) (by simpa using h4)]
            simp

/-- The per-file callback meets an uncaught exception exactly when the child
process of its transcription emits `'error'`. -/
theorem extractText_crashes_iff (w : Collab) (f : UploadedFile) :
    (∃ e, (extractText w f).1 = .uncaught e) ↔ transcriptionCrashes w f = true := by
  by_cases h4 : Js.startsWith f.mimetype "video/" = true
  · rw [extractText_video w f h4]
    unfold transcriptionCrashes
    simp only [h4, Bool.true_and]
    rcases transcribe_outcome w.transcribe with ⟨e, hc, ht⟩ | ⟨hc, ⟨e, ht⟩ | ⟨t, ht⟩⟩
    · rw [ht, hc]
      simp
    · rw [ht]
      cases hw : w.transcribe with
      | errored e1 => exact absurd hw (hc e1)
      | threw e1 => simp
      | closed code stdout stderr => simp
    · rw [ht]
      cases hw : w.transcribe with
      | errored e1 => exact absurd hw (hc e1)
      | threw e1 => simp
      | closed code stdout stderr => simp
  · have hcr : transcriptionCrashes w f = false := by
      simp only [Bool.not_eq_true] at h4
      simp [transcriptionCrashes, h4]
    rw [hcr]
    simp only [Bool.false_eq_true, iff_false, not_exists]
    intro e
    unfold extractText
    split
    · cases w.readFileSync with
      | error e1 => simp
      | ok buf =>
        simp only []
        cases w.pdfParse buf <;> simp
    · split
      · cases w.extractRawText <;> simp
      · split
        · cases w.readFileUtf8 <;> simp
        · split
          · cases w.ocr <;> simp
          · simp [h4]

theorem processFile_rejects_iff (rt : Js.Runtime) (w : Collab) (m : String)
    (f : UploadedFile) :
    (∃ e, (processFile rt w m f).1 = .rejected e) ↔ documentExtractorThrows w f = true := by
  rw [← extractText_rejects_iff, processFile_result]
  cases (extractText w f).1 <;> simp

theorem processFile_crashes_iff (rt : Js.Runtime) (w : Collab) (m : String)
    (f : UploadedFile) :
    (∃ e, (processFile rt w m f).1 = .uncaught e) ↔ transcriptionCrashes w f = true := by
  rw [← extractText_crashes_iff, processFile_result]
  cases (extractText w f).1 <;> simp

/-- No callback rejects when no document extraction throws. -/
theorem no_rejection_of_no_throw (rt : Js.Runtime) (query : Option String)
    (files : List UploadedFile) (env : Nat → Collab)
    (h : ∀ i f, files[i]? = some f → documentExtractorThrows (env i) f = false) :
    rejections (settledResults rt query files env) = [] := by
  by_contra hne
  obtain ⟨e, he⟩ := List.exists_mem_of_ne_nil _ hne
  have hmem := mem_of_mem_rejections _ e he
  obtain ⟨i, hi⟩ := List.getElem?_of_mem hmem
  rw [settledResults_getElem?] at hi
  cases hf : files[i]? with
  | none => rw [hf] at hi; simp at hi
  | some f =>
    rw [hf] at hi
    simp only [Option.map_some', Option.some.injEq] at hi
    have := (processFile_rejects_iff rt (env i) (selectedModel rt query) f).1 ⟨e, hi⟩
    rw [h i f hf] at this
    exact Bool.noConfusion this

/-- No callback meets an uncaught exception when no child process emits
`'error'`. -/
theorem no_uncaught_of_no_crash (rt : Js.Runtime) (query : Option String)
    (files : List UploadedFile) (env : Nat → Collab)
    (h : ∀ i f, files[i]? = some f → transcriptionCrashes (env i) f = false) :
    uncaughtErrors (settledResults rt query files env) = [] := by
  by_contra hne
  obtain ⟨e, he⟩ := List.exists_mem_of_ne_nil _ hne
  have hmem := mem_of_mem_uncaughtErrors _ e he
  obtain ⟨i, hi⟩ := List.getElem?_of_mem hmem
  rw [settledResults_getElem?] at hi
  cases hf : files[i]? with
  | none => rw [hf] at hi; simp at hi
  | some f =>
    rw [hf] at hi
    simp only [Option.map_some', Option.some.injEq] at hi
    have := (processFile_crashes_iff rt (env i) (selectedModel rt query) f).1 ⟨e, hi⟩
    rw [h i f hf] at this
    exact Bool.noConfusion this

/-- The route dies without a response when the child process of some file emits
`'error'`. -/
theorem died_of_crash (rt : Js.Runtime) (query : Option String)
    (files : List UploadedFile) (env : Nat → Collab) (race : Nat) (i : Nat) (f : UploadedFile)
    (hf : files[i]? = some f) (hcrash : transcriptionCrashes (env i) f = true) :
    (uploadHandler rt query files env race).response = none := by
  obtain ⟨e, he⟩ := (processFile_crashes_iff rt (env i) (selectedModel rt query) f).2 hcrash
  have hsettled : (settledResults rt query files env)[i]? = some (.uncaught e) := by
    rw [settledResults_getElem?, hf]
    simp [he]
  exact uploadHandler_died rt query files env race
    (uncaughtErrors_ne_nil_of_mem _ e (List.getElem?_mem hsettled))

/-- Counterexample to C6 as stated: in a batch of a Word document that cannot be
extracted and a video whose `python` process cannot be spawned, the Word
extractor throws, yet the route sends no response at all: the process dies on the
uncaught `'error'` event of the child. -/
theorem upload_spawn_failure_preempts_500 :
    [reportFile, clipFile][0]? = some reportFile ∧
    documentExtractorThrows corrupt reportFile = true ∧
    ∀ (rt : Js.Runtime) (query : Option String) (race : Nat),
      (uploadHandler rt query [reportFile, clipFile]
        (fun k => if k = 0 then corrupt else noPython) race).response = none := by
  refine ⟨rfl, by decide, ?_⟩
  intro rt query race
  exact died_of_crash rt query [reportFile, clipFile]
    (fun k => if k = 0 then corrupt else noPython) race 1 clipFile rfl (by decide)

/-- C6, amended: whenever the PDF, Word or plain-text extraction throws for at
least one file of the batch, and no video's child process emits `'error'`, the
route answers 500 with the body `{message: 'Upload failed', error}`, which
carries no `files` array, so no report is returned for any file. -/
theorem upload_document_failure_fails_batch (rt : Js.Runtime) (query : Option String)
    (files : List UploadedFile) (env : Nat → Collab) (race : Nat) (i : Nat) (f : UploadedFile)
    (hf : files[i]? = some f) (hthrow : documentExtractorThrows (env i) f = true)
    (hspawn : ∀ j g, files[j]? = some g → transcriptionCrashes (env j) g = false) :
    ∃ e, (uploadHandler rt query files env race).response =
      some { status := 500, message := "Upload failed", files := none, error := some e } := by
  obtain ⟨e, he⟩ := (processFile_rejects_iff rt (env i) (selectedModel rt query) f).2 hthrow
  have hsettled : (settledResults rt query files env)[i]? = some (.rejected e) := by
    rw [settledResults_getElem?, hf]
    simp [he]
  have hne : rejections (settledResults rt query files env) ≠ [] :=
    rejections_ne_nil_of_mem _ e (List.getElem?_mem hsettled)
  have hu := no_uncaught_of_no_crash rt query files env hspawn
  obtain ⟨e1, _, h1⟩ := uploadHandler_failed rt query files env race hu hne
  exact ⟨e1, h1⟩

/-- Witness for the amended C6: an image that is processed normally, followed by
a text file that cannot be read. -/
theorem upload_document_failure_fails_batch_witness :
    [scanFile, notesFile][1]? = some notesFile ∧
    documentExtractorThrows unreadable notesFile = true ∧
    (∀ j g, [scanFile, notesFile][j]? = some g →
      transcriptionCrashes ((fun k => if k = 0 then calm else unreadable) j) g = false) ∧
    ∃ e, (uploadHandler Js.asciiRuntime none [scanFile, notesFile]
        (fun k => if k = 0 then calm else unreadable) 0).response =
      some { status := 500, message := "Upload failed", files := none, error := some e } :=
  have h : ∀ j g, [scanFile, notesFile][j]? = some g →
      transcriptionCrashes ((fun k => if k = 0 then calm else unreadable) j) g = false := by
    intro j g hg
    match j with
    | 0 =>
      simp only [List.getElem?_cons_zero, Option.some.injEq] at hg
      subst hg
      decide
    | 1 =>
      simp only [List.getElem?_cons_succ, List.getElem?_cons_zero, Option.some.injEq] at hg
      subst hg
      decide
    | k + 2 => simp at hg
  ⟨rfl, by decide, h,
    upload_document_failure_fails_batch Js.asciiRuntime none [scanFile, notesFile]
      (fun k => if k = 0 then calm else unreadable) 0 1 notesFile rfl (by decide) h⟩

end UploadRoutes

namespace UploadRoutes

/-- The report the callback resolves to when its extraction does not throw. -/
theorem processFile_of_extracted (rt : Js.Runtime) (w : Collab) (m : String)
    (f : UploadedFile) (parsedText : JsText)
    (hx : (extractText w f).1 = .fulfilled parsedText) :
    (processFile rt w m f).1 =
      .fulfilled
        { filename := f.filename
          originalname := f.originalname
          mimetype := f.mimetype
          size := f.size
          url := "/uploads/" ++ f.filename
          content := parsedText
          ai_response := (queryModel rt w m parsedText).1 } := by
  rw [processFile_result, hx]

theorem extracted_of_no_throw (w : Collab) (f : UploadedFile)
    (h : documentExtractorThrows w f = false) (hc : transcriptionCrashes w f = false) :
    ∃ parsedText, (extractText w f).1 = .fulfilled parsedText := by
  cases hx : (extractText w f).1 with
  | fulfilled parsedText => exact ⟨parsedText, rfl⟩
  | rejected e =>
    have := (extractText_rejects_iff w f).1 ⟨e, hx⟩
    rw [h] at this
    exact Bool.noConfusion this
  | uncaught e =>
    have := (extractText_crashes_iff w f).1 ⟨e, hx⟩
    rw [hc] at this
    exact Bool.noConfusion this

/-- A one-file batch whose callback resolves is answered 200 with that report. -/
theorem uploadHandler_single (rt : Js.Runtime) (query : Option String) (f : UploadedFile)
    (env : Nat → Collab) (race : Nat) (r : FileReport) (t : List Event)
    (h : processFile rt (env 0) (selectedModel rt query) f = (.fulfilled r, t)) :
    (uploadHandler rt query [f] env race).response =
      some { status := 200
             message := "Files uploaded, parsed, and processed successfully"
             files := some [r]
             error := none } ∧
    (uploadHandler rt query [f] env race).calls = [t] := by
  unfold uploadHandler
  simp [List.mapIdx_cons, h, uncaughtErrors, rejections, fulfilments]

/-- The default selector "groq" reaches the Groq branch of `getAIResponse`. -/
theorem getAIResponse_groq (rt : Js.Runtime) (w : Collab) (text : String) :
    getAIResponse rt w text "groq" =
      (match w.fetchGroq "groq" text with
        | .error e => (.error e, [Event.groq "groq" text])
        | .ok aiRes =>
          if !aiRes.ok then
            match aiRes.text with
            | .error e => (.error e, [Event.groq "groq" text])
            | .ok errText =>
              (.error ("Groq API error: " ++ toString aiRes.status ++ " - " ++ errText),
                [Event.groq "groq" text])
          else
            match aiRes.content with
            | .error e => (.error e, [Event.groq "groq" text])
            | .ok content =>
              (.ok (some (Js.orElse (content.getD "") "Sorry, no reply generated.")),
                [Event.groq "groq" text])) := by
  have hg : Js.startsWith (rt.toLowerCase "groq") "gemini" = false := by
    rw [toLowerCase_groq]; decide
  have hq : Js.startsWith (rt.toLowerCase "groq") "groq" = true := by
    rw [toLowerCase_groq]; decide
  have ho : Js.orElse "groq" "llama3-8b-8192" = "groq" := by decide
  unfold getAIResponse
  simp only [hg, hq, ho, if_true, if_false, Bool.false_eq_true]

/-- C4, the code at the failing input: in a one-file batch whose image fails OCR,
the failure sentinel becomes the content, `getAIResponse` is invoked on the
sentinel, the sentinel is sent to Groq, and the report carries the provider's
reply instead of a null `ai_response`. -/
theorem upload_ocr_failure_still_queries_model (rt : Js.Runtime) :
    throws offline.ocr = true ∧
    (uploadHandler rt none [scanFile] (fun _ => offline) 0).calls =
      [[Event.ocr scanFile.path, Event.invokeAI "⚠️ OCR microservice failed." "groq",
        Event.groq "groq" "⚠️ OCR microservice failed."]] ∧
    (uploadHandler rt none [scanFile] (fun _ => offline) 0).response =
      some { status := 200
             message := "Files uploaded, parsed, and processed successfully"
             files :=
               some [{ filename := "1700000000000-2-scan.png"
                       originalname := "scan.png"
                       mimetype := "image/png"
                       size := 2048
                       url := "/uploads/1700000000000-2-scan.png"
                       content := .str "⚠️ OCR microservice failed."
                       ai_response := some "A short summary." }]
             error := none } := by
  have hp : processFile rt offline (selectedModel rt none) scanFile =
      (.fulfilled
          { filename := "1700000000000-2-scan.png"
            originalname := "scan.png"
            mimetype := "image/png"
            size := 2048
            url := "/uploads/1700000000000-2-scan.png"
            content := .str "⚠️ OCR microservice failed."
            ai_response := some "A short summary." },
        [Event.ocr scanFile.path, Event.invokeAI "⚠️ OCR microservice failed." "groq",
          Event.groq "groq" "⚠️ OCR microservice failed."]) := by
    have hx : extractText offline scanFile =
        (.fulfilled (.str "⚠️ OCR microservice failed."), [.ocr scanFile.path]) := rfl
    have hin : aiInput (.str "⚠️ OCR microservice failed.") =
        some "⚠️ OCR microservice failed." := by decide
    have hai : getAIResponse rt offline "⚠️ OCR microservice failed." "groq" =
        (.ok (some "A short summary."), [Event.groq "groq" "⚠️ OCR microservice failed."]) := by
      rw [getAIResponse_groq]
      rfl
    rw [selectedModel_none]
    unfold processFile queryModel
    rw [hx]
    simp only [hin, hai]
    rfl
  obtain ⟨h1, h2⟩ := uploadHandler_single rt none scanFile (fun _ => offline) 0 _ _ hp
  exact ⟨rfl, h2, h1⟩

/-- C5, the code at the failing input and elsewhere: in a one-file batch whose
video cannot be transcribed because `python` cannot be spawned, no document
extractor throws, yet the route sends no response (no 200, no sentinel content):
the child's `'error'` event has no listener and the process dies.  In every batch
in which no document extractor throws and no child process emits `'error'`, the
route does what the claim says: it answers 200 with one report per file, an OCR
failure gives the content '⚠️ OCR microservice failed.', a transcription that
closes with a non-zero code (or whose `spawn` throws) gives '⚠️ Video
transcription failed.', a provider call that throws gives the `ai_response`
'⚠️ AI processing failed.', and the report of a file is the same in every run
with the same outcomes of that file's own collaborator calls. -/
theorem upload_spawn_failure_unanswered :
    [clipFile][0]? = some clipFile ∧
    documentExtractorThrows noPython clipFile = false ∧
    transcriptionCrashes noPython clipFile = true ∧
    (∀ (rt : Js.Runtime) (query : Option String) (race : Nat),
      (uploadHandler rt query [clipFile] (fun _ => noPython) race).response = none) ∧
    (∀ (rt : Js.Runtime) (query : Option String) (files : List UploadedFile)
        (env : Nat → Collab) (race : Nat),
      (∀ i f, files[i]? = some f → documentExtractorThrows (env i) f = false) →
      (∀ i f, files[i]? = some f → transcriptionCrashes (env i) f = false) →
      ∃ resp reports, (uploadHandler rt query files env race).response = some resp ∧
        resp.status = 200 ∧ resp.files = some reports ∧
        reports.length = files.length ∧
        ∀ i f, files[i]? = some f → ∃ r, reports[i]? = some r ∧
          r.filename = f.filename ∧ r.originalname = f.originalname ∧
          (Js.startsWith f.mimetype "image/" = true → throws (env i).ocr = true →
            r.content = .str ocrFailed) ∧
          (transcriptionRejects (env i) f = true → r.content = .str videoFailed) ∧
          (∀ s, r.content = .str s → 10 < Js.length s →
            throws (getAIResponse rt (env i) s (selectedModel rt query)).1 = true →
              r.ai_response = some aiFailed) ∧
          (∀ env1 race1 resp1 reports1, env1 i = env i →
            (uploadHandler rt query files env1 race1).response = some resp1 →
            resp1.files = some reports1 → reports1[i]? = some r)) := by
  refine ⟨rfl, by decide, by decide, ?_, ?_⟩
  · intro rt query race
    exact died_of_crash rt query [clipFile] (fun _ => noPython) race 0 clipFile rfl (by decide)
  · intro rt query files env race hdoc hspawn
    have hu := no_uncaught_of_no_crash rt query files env hspawn
    have hrej := no_rejection_of_no_throw rt query files env hdoc
    have hresp := uploadHandler_ok rt query files env race hu hrej
    refine ⟨_, _, hresp, rfl, rfl, ?_, ?_⟩
    · have h1 := congrArg List.length (settled_of_all_fulfilled _ hu hrej)
      rw [List.length_map] at h1
      rw [← h1]
      simp [settledResults]
    · intro i f hf
      obtain ⟨r, hr, hp⟩ := report_of_response rt query files env race _ _ i f hresp rfl hf
      obtain ⟨parsedText, hx⟩ :=
        extracted_of_no_throw (env i) f (hdoc i f hf) (hspawn i f hf)
      have hp1 := processFile_of_extracted rt (env i) (selectedModel rt query) f parsedText hx
      rw [hp] at hp1
      simp only [Settled.fulfilled.injEq] at hp1
      refine ⟨r, hr, by rw [hp1], by rw [hp1], ?_, ?_, ?_, ?_⟩
      · intro himg hfail
        rw [extractText_image _ f himg] at hx
        rw [hp1]
        cases hocr : (env i).ocr with
        | ok text => rw [hocr] at hfail; exact Bool.noConfusion hfail
        | error e =>
          rw [hocr] at hx
          simp only [Settled.fulfilled.injEq] at hx
          rw [← hx]
      · intro hfail
        unfold transcriptionRejects at hfail
        simp only [Bool.and_eq_true] at hfail
        obtain ⟨hvid, hfail⟩ := hfail
        rw [extractText_video _ f hvid] at hx
        rw [hp1]
        cases htr : (env i).transcribe with
        | errored e => rw [htr] at hfail; exact Bool.noConfusion hfail
        | threw e =>
          rw [htr] at hx
          simp only [transcribeAudioFromVideo, Settled.fulfilled.injEq] at hx
          rw [← hx]
        | closed code stdout stderr =>
          rw [htr] at hfail hx
          simp only [decide_eq_true_eq] at hfail
          simp only [transcribeAudioFromVideo, hfail, if_false, Settled.fulfilled.injEq] at hx
          rw [← hx]
      · intro s hs hlen hfail
        rw [hp1] at hs
        simp only [] at hs
        rw [hp1]
        simp only []
        rw [hs, (queryModel_of_input _ _ _ _ s (aiInput_of_long s hlen)).2]
        cases hg : (getAIResponse rt (env i) s (selectedModel rt query)).1 with
        | ok reply => rw [hg] at hfail; exact Bool.noConfusion hfail
        | error e => rfl
      · intro env1 race1 resp1 reports1 henv hresp1 hfiles1
        obtain ⟨r1, hr1, hq⟩ :=
          report_of_response rt query files env1 race1 resp1 reports1 i f hresp1 hfiles1 hf
        rw [henv, hp] at hq
        simp only [Settled.fulfilled.injEq] at hq
        rw [hr1, hq]

/-- C7, the code at the failing input: a batch request without a `model` query
parameter and one plain-text file makes a single Groq request, and the model
named in that request is "groq", not "llama3-8b-8192"; in general every request
made by `getAIResponse` names the selector itself, so the fallback model names
are never sent unless passed as the selector, and "llama3-8b-8192" is never sent
to Groq. -/
theorem upload_default_model_is_selector (rt : Js.Runtime) :
    (uploadHandler rt none [notesFile] (fun _ => calm) 0).calls =
      [[Event.readFileUtf8 notesFile.path, Event.invokeAI "hello world!" "groq",
        Event.groq "groq" "hello world!"]] ∧
    Event.groq "llama3-8b-8192" "hello world!" ∉
      (uploadHandler rt none [notesFile] (fun _ => calm) 0).calls.flatten ∧
    (∀ (w : Collab) (text s m u : String), Event.groq m u ∈ (getAIResponse rt w text s).2 →
      m = s ∧ m ≠ "llama3-8b-8192") ∧
    (∀ (w : Collab) (text s m u : String), Event.gemini m u ∈ (getAIResponse rt w text s).2 →
      m = s) := by
  have hp : processFile rt calm (selectedModel rt none) notesFile =
      (.fulfilled
          { filename := notesFile.filename
            originalname := notesFile.originalname
            mimetype := notesFile.mimetype
            size := notesFile.size
            url := "/uploads/" ++ notesFile.filename
            content := .str "hello world!"
            ai_response := some "A short summary." },
        [Event.readFileUtf8 notesFile.path, Event.invokeAI "hello world!" "groq",
          Event.groq "groq" "hello world!"]) := by
    have hx : extractText calm notesFile =
        (.fulfilled (.str "hello world!"), [.readFileUtf8 notesFile.path]) := rfl
    have hin : aiInput (.str "hello world!") = some "hello world!" := by decide
    have hai : getAIResponse rt calm "hello world!" "groq" =
        (.ok (some "A short summary."), [Event.groq "groq" "hello world!"]) := by
      rw [getAIResponse_groq]
      rfl
    rw [selectedModel_none]
    unfold processFile queryModel
    rw [hx]
    simp only [hin, hai]
    rfl
  have hcalls := (uploadHandler_single rt none notesFile (fun _ => calm) 0 _ _ hp).2
  have hllama : rt.toLowerCase "llama3-8b-8192" = "llama3-8b-8192" := by
    rw [rt.toLowerCase_ascii "llama3-8b-8192" (by decide)]; decide
  refine ⟨hcalls, by rw [hcalls]; decide, ?_, ?_⟩
  · intro w text s m u hmem
    rw [getAIResponse_calls] at hmem
    by_cases hg : Js.startsWith (rt.toLowerCase s) "gemini" = true
    · simp [hg] at hmem
    · by_cases hq : Js.startsWith (rt.toLowerCase s) "groq" = true
      · simp only [Bool.not_eq_true] at hg
        simp only [hg, hq, if_true, Bool.false_eq_true, if_false, List.mem_singleton,
          Event.groq.injEq] at hmem
        have hne : s ≠ "" := by
          intro h0
          rw [h0, toLowerCase_empty] at hq
          revert hq
          decide
        have hm : m = s := by rw [hmem.1]; simp [Js.orElse, hne]
        refine ⟨hm, ?_⟩
        intro hll
        rw [hm] at hll
        rw [hll, hllama] at hq
        revert hq
        decide
      · simp [hg, hq] at hmem
  · intro w text s m u hmem
    rw [getAIResponse_calls] at hmem
    by_cases hg : Js.startsWith (rt.toLowerCase s) "gemini" = true
    · simp only [hg, if_true, List.mem_singleton, Event.gemini.injEq] at hmem
      have hne : s ≠ "" := by
        intro h0
        rw [h0, toLowerCase_empty] at hg
        revert hg
        decide
      rw [hmem.1]
      simp [Js.orElse, hne]
    · by_cases hq : Js.startsWith (rt.toLowerCase s) "groq" = true
      · simp [hg, hq] at hmem
      · simp [hg, hq] at hmem

end UploadRoutes
/-! ## Auxiliary facts about the voice route: one equation per exit path -/

namespace VoiceRoutes

theorem askModel_calls (rt : Js.Runtime) (w : Collab) (m t : String) (res : Except Error String)
    (asked : List Event) (h : askModel rt w m t = some (res, asked)) :
    ∀ e ∈ asked, e.isProviderCall = true := by
  unfold askModel at h
  intro e he
  repeat' split at h
  all_goals first
    | (simp at h; done)
    | (simp only [Option.some.injEq, Prod.mk.injEq] at h
       obtain ⟨_, h2⟩ := h
       subst h2
       first
         | (simp at he; done)
         | (simp at he; subst he; rfl))

end VoiceRoutes

namespace VoiceRoutes

theorem voiceUpload_transcribe_error (rt : Js.Runtime)
    (sessionId filePath : String) (query : Option String)
    (w : Collab) (st : State) (hp : filePath ≠ "") (hex : st.fileExists = true) (e : Error)
    (h : w.transcribe = .error e) :
    voiceUpload rt sessionId (some filePath) query w st =
      { response := failure w e
        state := { st with fileExists := false }
        calls := [.transcribe filePath, .existsSync filePath, .unlinkSync filePath] } := by
  simp [voiceUpload, tryBlock, catchBlock, hp, h, hex]

theorem voiceUpload_blank (rt : Js.Runtime) (sessionId filePath : String) (query : Option String)
    (w : Collab) (st : State) (hp : filePath ≠ "") (hex : st.fileExists = true) (data : JsText)
    (h : w.transcribe = .ok data) (hblank : spoken data = none) :
    voiceUpload rt sessionId (some filePath) query w st =
      { response := { status := 400, body := .error "No speech detected in audio" }
        state := { st with fileExists := false }
        calls := [.transcribe filePath, .unlinkSync filePath] } := by
  simp [voiceUpload, tryBlock, unlinkThenReturn, hp, h, hex, hblank]

theorem voiceUpload_findById_error (rt : Js.Runtime)
    (sessionId filePath : String) (query : Option String)
    (w : Collab) (st : State) (hp : filePath ≠ "") (hex : st.fileExists = true) (data : JsText)
    (t : String) (e : Error)
    (h : w.transcribe = .ok data) (ht : spoken data = some t) (hfind : w.findByIdError = some e) :
    voiceUpload rt sessionId (some filePath) query w st =
      { response := failure w e
        state := { st with fileExists := false }
        calls := [.transcribe filePath, .findById sessionId, .existsSync filePath,
          .unlinkSync filePath] } := by
  simp [voiceUpload, tryBlock, catchBlock, hp, h, hex, ht, hfind]

theorem voiceUpload_no_session (rt : Js.Runtime)
    (sessionId filePath : String) (query : Option String)
    (w : Collab) (st : State) (hp : filePath ≠ "") (hex : st.fileExists = true) (data : JsText)
    (t : String)
    (h : w.transcribe = .ok data) (ht : spoken data = some t) (hfind : w.findByIdError = none)
    (hs : st.store sessionId = none) :
    voiceUpload rt sessionId (some filePath) query w st =
      { response := { status := 404, body := .error "Session not found" }
        state := { st with fileExists := false }
        calls := [.transcribe filePath, .findById sessionId, .unlinkSync filePath] } := by
  simp [voiceUpload, tryBlock, unlinkThenReturn, hp, h, hex, ht, hfind, hs]

theorem voiceUpload_unknown_model (rt : Js.Runtime)
    (sessionId filePath : String) (query : Option String)
    (w : Collab) (st : State) (hp : filePath ≠ "") (hex : st.fileExists = true) (data : JsText)
    (t : String) (session : Session)
    (h : w.transcribe = .ok data) (ht : spoken data = some t) (hfind : w.findByIdError = none)
    (hs : st.store sessionId = some session)
    (hm : askModel rt w (selectedModel query) t = none) :
    voiceUpload rt sessionId (some filePath) query w st =
      { response := { status := 400, body := .error "Unknown model selected" }
        state := { st with fileExists := false }
        calls := [.transcribe filePath, .findById sessionId, .unlinkSync filePath] } := by
  simp [voiceUpload, tryBlock, unlinkThenReturn, hp, h, hex, ht, hfind, hs, hm]

theorem voiceUpload_model_error (rt : Js.Runtime)
    (sessionId filePath : String) (query : Option String)
    (w : Collab) (st : State) (hp : filePath ≠ "") (hex : st.fileExists = true) (data : JsText)
    (t : String) (session : Session) (e : Error) (asked : List Event)
    (h : w.transcribe = .ok data) (ht : spoken data = some t) (hfind : w.findByIdError = none)
    (hs : st.store sessionId = some session)
    (hm : askModel rt w (selectedModel query) t = some (.error e, asked)) :
    voiceUpload rt sessionId (some filePath) query w st =
      { response := failure w e
        state := { st with fileExists := false }
        calls := [.transcribe filePath, .findById sessionId] ++ asked ++
          [.existsSync filePath, .unlinkSync filePath] } := by
  simp [voiceUpload, tryBlock, catchBlock, hp, h, hex, ht, hfind, hs, hm]

theorem voiceUpload_save_error (rt : Js.Runtime)
    (sessionId filePath : String) (query : Option String)
    (w : Collab) (st : State) (hp : filePath ≠ "") (hex : st.fileExists = true) (data : JsText)
    (t : String) (session : Session) (reply : String) (asked : List Event) (e : Error)
    (h : w.transcribe = .ok data) (ht : spoken data = some t) (hfind : w.findByIdError = none)
    (hs : st.store sessionId = some session)
    (hm : askModel rt w (selectedModel query) t = some (.ok reply, asked))
    (hsave : w.saveError = some e) :
    voiceUpload rt sessionId (some filePath) query w st =
      { response := failure w e
        state := { st with fileExists := false }
        calls := [.transcribe filePath, .findById sessionId] ++ asked ++
          [.save sessionId, .existsSync filePath, .unlinkSync filePath] } := by
  simp [voiceUpload, tryBlock, saveAndReply, catchBlock, hp, h, hex, ht, hfind, hs, hm, hsave]

theorem voiceUpload_success (rt : Js.Runtime) (sessionId filePath : String) (query : Option String)
    (w : Collab) (st : State) (hp : filePath ≠ "") (hex : st.fileExists = true) (data : JsText)
    (t : String) (session : Session) (reply : String) (asked : List Event)
    (h : w.transcribe = .ok data) (ht : spoken data = some t) (hfind : w.findByIdError = none)
    (hs : st.store sessionId = some session)
    (hm : askModel rt w (selectedModel query) t = some (.ok reply, asked))
    (hsave : w.saveError = none) :
    voiceUpload rt sessionId (some filePath) query w st =
      { response := { status := 200, body := .success t reply true (selectedModel query) }
        state :=
          { fileExists := false
            store := Function.update st.store sessionId (some (extended w session t reply)) }
        calls := [.transcribe filePath, .findById sessionId] ++ asked ++
          [.save sessionId, .unlinkSync filePath] } := by
  simp [voiceUpload, tryBlock, saveAndReply, unlinkThenReturn, hp, h, hex, ht, hfind, hs, hm,
    hsave]

end VoiceRoutes

namespace VoiceRoutes

/-- Every run on a received file that is on disk takes one of the eight exit
paths. -/
theorem voiceUpload_cases (rt : Js.Runtime) (sessionId filePath : String) (query : Option String)
    (w : Collab) (st : State) (hp : filePath ≠ "") (hex : st.fileExists = true) :
    (∃ e, w.transcribe = .error e ∧
      voiceUpload rt sessionId (some filePath) query w st =
        { response := failure w e
          state := { st with fileExists := false }
          calls := [.transcribe filePath, .existsSync filePath, .unlinkSync filePath] }) ∨
    (∃ data, w.transcribe = .ok data ∧ spoken data = none ∧
      voiceUpload rt sessionId (some filePath) query w st =
        { response := { status := 400, body := .error "No speech detected in audio" }
          state := { st with fileExists := false }
          calls := [.transcribe filePath, .unlinkSync filePath] }) ∨
    (∃ data t e, w.transcribe = .ok data ∧ spoken data = some t ∧ w.findByIdError = some e ∧
      voiceUpload rt sessionId (some filePath) query w st =
        { response := failure w e
          state := { st with fileExists := false }
          calls := [.transcribe filePath, .findById sessionId, .existsSync filePath,
            .unlinkSync filePath] }) ∨
    (∃ data t, w.transcribe = .ok data ∧ spoken data = some t ∧ w.findByIdError = none ∧
      st.store sessionId = none ∧
      voiceUpload rt sessionId (some filePath) query w st =
        { response := { status := 404, body := .error "Session not found" }
          state := { st with fileExists := false }
          calls := [.transcribe filePath, .findById sessionId, .unlinkSync filePath] }) ∨
    (∃ data t session, w.transcribe = .ok data ∧ spoken data = some t ∧
      w.findByIdError = none ∧ st.store sessionId = some session ∧
      askModel rt w (selectedModel query) t = none ∧
      voiceUpload rt sessionId (some filePath) query w st =
        { response := { status := 400, body := .error "Unknown model selected" }
          state := { st with fileExists := false }
          calls := [.transcribe filePath, .findById sessionId, .unlinkSync filePath] }) ∨
    (∃ data t session e asked, w.transcribe = .ok data ∧ spoken data = some t ∧
      w.findByIdError = none ∧ st.store sessionId = some session ∧
      askModel rt w (selectedModel query) t = some (.error e, asked) ∧
      voiceUpload rt sessionId (some filePath) query w st =
        { response := failure w e
          state := { st with fileExists := false }
          calls := [.transcribe filePath, .findById sessionId] ++ asked ++
            [.existsSync filePath, .unlinkSync filePath] }) ∨
    (∃ data t session reply asked e, w.transcribe = .ok data ∧ spoken data = some t ∧
      w.findByIdError = none ∧ st.store sessionId = some session ∧
      askModel rt w (selectedModel query) t = some (.ok reply, asked) ∧ w.saveError = some e ∧
      voiceUpload rt sessionId (some filePath) query w st =
        { response := failure w e
          state := { st with fileExists := false }
          calls := [.transcribe filePath, .findById sessionId] ++ asked ++
            [.save sessionId, .existsSync filePath, .unlinkSync filePath] }) ∨
    (∃ data t session reply asked, w.transcribe = .ok data ∧ spoken data = some t ∧
      w.findByIdError = none ∧ st.store sessionId = some session ∧
      askModel rt w (selectedModel query) t = some (.ok reply, asked) ∧ w.saveError = none ∧
      voiceUpload rt sessionId (some filePath) query w st =
        { response := { status := 200, body := .success t reply true (selectedModel query) }
          state :=
            { fileExists := false
              store := Function.update st.store sessionId (some (extended w session t reply)) }
          calls := [.transcribe filePath, .findById sessionId] ++ asked ++
            [.save sessionId, .unlinkSync filePath] }) := by
  cases h : w.transcribe with
  | error e =>
    exact Or.inl ⟨e, rfl, voiceUpload_transcribe_error rt sessionId filePath query w st hp hex e h⟩
  | ok data =>
    right
    cases ht : spoken data with
    | none =>
      exact Or.inl ⟨data, rfl, ht, voiceUpload_blank rt sessionId filePath query w st hp hex data h ht⟩
    | some t =>
      right
      cases hfind : w.findByIdError with
      | some e =>
        exact Or.inl ⟨data, t, e, rfl, ht, rfl,
          voiceUpload_findById_error rt sessionId filePath query w st hp hex data t e h ht hfind⟩
      | none =>
        right
        cases hs : st.store sessionId with
        | none =>
          exact Or.inl ⟨data, t, rfl, ht, rfl, rfl,
            voiceUpload_no_session rt sessionId filePath query w st hp hex data t h ht hfind hs⟩
        | some session =>
          right
          cases hm : askModel rt w (selectedModel query) t with
          | none =>
            exact Or.inl ⟨data, t, session, rfl, ht, rfl, rfl, hm,
              voiceUpload_unknown_model rt sessionId filePath query w st hp hex data t session
                h ht hfind hs hm⟩
          | some res =>
            right
            obtain ⟨res, asked⟩ := res
            cases res with
            | error e =>
              exact Or.inl ⟨data, t, session, e, asked, rfl, ht, rfl, rfl, hm,
                voiceUpload_model_error rt sessionId filePath query w st hp hex data t session e
                  asked h ht hfind hs hm⟩
            | ok reply =>
              right
              cases hsave : w.saveError with
              | some e =>
                exact Or.inl ⟨data, t, session, reply, asked, e, rfl, ht, rfl, rfl, hm, rfl,
                  voiceUpload_save_error rt sessionId filePath query w st hp hex data t session
                    reply asked e h ht hfind hs hm hsave⟩
              | none =>
                exact Or.inr ⟨data, t, session, reply, asked, rfl, ht, rfl, rfl, hm, rfl,
                  voiceUpload_success rt sessionId filePath query w st hp hex data t session
                    reply asked h ht hfind hs hm hsave⟩

theorem count_unlink_asked (rt : Js.Runtime) (w : Collab) (m t : String) (res : Except Error String)
    (asked : List Event) (h : askModel rt w m t = some (res, asked)) (e : Event)
    (he : e.isProviderCall = false) : e ∉ asked := by
  intro hmem
  have := askModel_calls rt w m t res asked h e hmem
  rw [he] at this
  exact Bool.noConfusion this

end VoiceRoutes

namespace VoiceRoutes

/-- C8: in every run of the voice route in which an audio file was received and is
on disk, whatever the exit path (200, 400 blank transcript, 404, 400 unknown
model, 500), exactly one `unlinkSync` is performed, it is on the uploaded file's
path, and the file no longer exists when the response is returned. -/
theorem voice_temp_file_deleted_once (rt : Js.Runtime)
    (sessionId filePath : String) (query : Option String)
    (w : Collab) (st : State) (hp : filePath ≠ "") (hex : st.fileExists = true) :
    (voiceUpload rt sessionId (some filePath) query w st).calls.count (.unlinkSync filePath) = 1 ∧
    ((voiceUpload rt sessionId (some filePath) query w st).calls.filter
      (fun e => match e with
        | .unlinkSync _ => true
        | _ => false)) = [.unlinkSync filePath] ∧
    (voiceUpload rt sessionId (some filePath) query w st).state.fileExists = false ∧
    ((voiceUpload rt sessionId (some filePath) query w st).response.status = 200 ∨
      (voiceUpload rt sessionId (some filePath) query w st).response.status = 400 ∨
      (voiceUpload rt sessionId (some filePath) query w st).response.status = 404 ∨
      (voiceUpload rt sessionId (some filePath) query w st).response.status = 500) := by
  have hasked : ∀ m t res asked, askModel rt w m t = some (res, asked) →
      asked.count (.unlinkSync filePath) = 0 ∧
      asked.filter (fun e => match e with
        | .unlinkSync _ => true
        | _ => false) = [] := by
    intro m t res asked h
    constructor
    · exact List.count_eq_zero.2 (count_unlink_asked rt w m t res asked h _ rfl)
    · rw [List.filter_eq_nil_iff]
      intro e he
      have := askModel_calls rt w m t res asked h e he
      cases e <;> simp_all [Event.isProviderCall]
  rcases voiceUpload_cases rt sessionId filePath query w st hp hex with
    ⟨e, _, hout⟩ | ⟨data, _, _, hout⟩ | ⟨data, t, e, _, _, _, hout⟩ |
    ⟨data, t, _, _, _, _, hout⟩ | ⟨data, t, session, _, _, _, _, _, hout⟩ |
    ⟨data, t, session, e, asked, _, _, _, _, hm, hout⟩ |
    ⟨data, t, session, reply, asked, e, _, _, _, _, hm, _, hout⟩ |
    ⟨data, t, session, reply, asked, _, _, _, _, hm, _, hout⟩
  · rw [hout]; simp [failure, List.count_cons]
  · rw [hout]; simp [List.count_cons]
  · rw [hout]; simp [failure, List.count_cons]
  · rw [hout]; simp [List.count_cons]
  · rw [hout]; simp [List.count_cons]
  · obtain ⟨h1, h2⟩ := hasked _ _ _ _ hm
    rw [hout]; simp [failure, List.count_cons, List.count_append, h1, h2]
  · obtain ⟨h1, h2⟩ := hasked _ _ _ _ hm
    rw [hout]; simp [failure, List.count_cons, List.count_append, h1, h2]
  · obtain ⟨h1, h2⟩ := hasked _ _ _ _ hm
    rw [hout]; simp [List.count_cons, List.count_append, h1, h2]

/-- Witness for C8: a successful run on session "s1". -/
theorem voice_temp_file_deleted_once_witness :
    "uploads/a1b2c3" ≠ "" ∧ ready.fileExists = true ∧
    (voiceUpload Js.asciiRuntime "s1" (some "uploads/a1b2c3") none steady ready).calls.count
      (.unlinkSync "uploads/a1b2c3") = 1 ∧
    (voiceUpload Js.asciiRuntime "s1" (some "uploads/a1b2c3")
      none steady ready).state.fileExists = false :=
  ⟨by decide, rfl,
    (voice_temp_file_deleted_once Js.asciiRuntime "s1" "uploads/a1b2c3"
      none steady ready (by decide) rfl).1,
    (voice_temp_file_deleted_once Js.asciiRuntime "s1" "uploads/a1b2c3"
      none steady ready (by decide) rfl).2.2.1⟩

end VoiceRoutes

namespace VoiceRoutes

/-- No provider is chosen exactly when the lower-cased model is neither "gemini"
nor "groq". -/
theorem askModel_eq_none_iff (rt : Js.Runtime) (w : Collab) (m t : String) :
    askModel rt w m t = none ↔ (rt.toLowerCase m ≠ "gemini" ∧ rt.toLowerCase m ≠ "groq") := by
  unfold askModel
  by_cases hg : rt.toLowerCase m = "gemini"
  · simp only [hg, if_true]
    have : ¬ ("gemini" ≠ "gemini" ∧ "gemini" ≠ "groq") := by decide
    simp only [this, iff_false]
    split
    · simp
    · split <;> simp
  · by_cases hq : rt.toLowerCase m = "groq"
    · simp only [hg, hq, if_true, if_false]
      have : ¬ ("groq" ≠ "gemini" ∧ "groq" ≠ "groq") := by decide
      simp only [this, iff_false]
      repeat' split
      all_goals simp
    · simp [hg, hq]

/-- Counterexample to C9 as stated: the model value "GROQ" is neither "gemini" nor
"groq", yet Groq is queried, the two turns are saved and the response is 200. -/
theorem voice_uppercase_model_is_accepted :
    "GROQ" ≠ "gemini" ∧ "GROQ" ≠ "groq" ∧
    ∀ rt : Js.Runtime,
      (voiceUpload rt "s1" (some "uploads/a1b2c3") (some "GROQ") steady ready).calls =
        [.transcribe "uploads/a1b2c3", .findById "s1", .groq "What is the weather today?",
          .save "s1", .unlinkSync "uploads/a1b2c3"] ∧
      (voiceUpload rt "s1" (some "uploads/a1b2c3") (some "GROQ") steady ready).response =
        { status := 200
          body := .success "What is the weather today?" "It is sunny." true "GROQ" } := by
  refine ⟨by decide, by decide, ?_⟩
  intro rt
  have hlow : rt.toLowerCase "GROQ" = "groq" := by
    rw [rt.toLowerCase_ascii "GROQ" (by decide)]; decide
  have hm : askModel rt steady (selectedModel (some "GROQ")) "What is the weather today?" =
      some (.ok "It is sunny.", [.groq "What is the weather today?"]) := by
    have hsel : selectedModel (some "GROQ") = "GROQ" := by decide
    have h1 : ¬ ("groq" = "gemini") := by decide
    unfold askModel
    simp only [hsel, hlow, h1, if_true, if_false]
    rfl
  have hout := voiceUpload_success rt "s1" "uploads/a1b2c3" (some "GROQ") steady ready
    (by decide) rfl (.str "What is the weather today?") "What is the weather today?"
    { chatHistory :=
        [{ id := "0b8f4c1e-0000", role := "user", content := "Hello",
           timestamp := 1690000000000, messageType := "text" }]
      lastEditedAt := 1690000000000 }
    "It is sunny." [.groq "What is the weather today?"] rfl (by decide) rfl rfl hm rfl
  rw [hout]
  exact ⟨rfl, rfl⟩

/-- C9, amended: in the voice route the provider is selected by comparing the
lower-cased model value (default "groq" when the parameter is absent or empty)
with "gemini" and with "groq": a provider is queried only if that lower-cased
value is exactly "gemini" or exactly "groq"; for every other value no provider
call is made, no turn is saved, the stored sessions are unchanged, and, when the
transcript is not blank and the session is found, the response is 400 with error
'Unknown model selected'. -/
theorem voice_model_selection (rt : Js.Runtime)
    (sessionId filePath : String) (query : Option String)
    (w : Collab) (st : State) (hp : filePath ≠ "") (hex : st.fileExists = true) :
    ((∃ e ∈ (voiceUpload rt sessionId (some filePath) query w st).calls,
        e.isProviderCall = true) →
      (rt.toLowerCase (selectedModel query) = "gemini" ∨
        rt.toLowerCase (selectedModel query) = "groq")) ∧
    ((rt.toLowerCase (selectedModel query) ≠ "gemini" ∧
        rt.toLowerCase (selectedModel query) ≠ "groq") →
      (∀ e ∈ (voiceUpload rt sessionId (some filePath) query w st).calls,
        e.isProviderCall = false) ∧
      Event.save sessionId ∉ (voiceUpload rt sessionId (some filePath) query w st).calls ∧
      (voiceUpload rt sessionId (some filePath) query w st).state.store = st.store ∧
      (∀ data t session, w.transcribe = .ok data → spoken data = some t →
        w.findByIdError = none → st.store sessionId = some session →
        (voiceUpload rt sessionId (some filePath) query w st).response =
          { status := 400, body := .error "Unknown model selected" })) ∧
    selectedModel none = "groq" ∧ selectedModel (some "") = "groq" := by
  have key : (rt.toLowerCase (selectedModel query) ≠ "gemini" ∧
        rt.toLowerCase (selectedModel query) ≠ "groq") →
      (∀ e ∈ (voiceUpload rt sessionId (some filePath) query w st).calls,
        e.isProviderCall = false) ∧
      Event.save sessionId ∉ (voiceUpload rt sessionId (some filePath) query w st).calls ∧
      (voiceUpload rt sessionId (some filePath) query w st).state.store = st.store ∧
      (∀ data t session, w.transcribe = .ok data → spoken data = some t →
        w.findByIdError = none → st.store sessionId = some session →
        (voiceUpload rt sessionId (some filePath) query w st).response =
          { status := 400, body := .error "Unknown model selected" }) := by
    intro hunknown
    have hnone : ∀ t, askModel rt w (selectedModel query) t = none :=
      fun t => (askModel_eq_none_iff rt w _ t).2 hunknown
    rcases voiceUpload_cases rt sessionId filePath query w st hp hex with
      ⟨e, h, hout⟩ | ⟨data, h, ht, hout⟩ | ⟨data, t, e, h, ht, hfind, hout⟩ |
      ⟨data, t, h, ht, hfind, hs, hout⟩ | ⟨data, t, session, h, ht, hfind, hs, hm, hout⟩ |
      ⟨data, t, session, e, asked, _, _, _, _, hm, hout⟩ |
      ⟨data, t, session, reply, asked, e, _, _, _, _, hm, _, hout⟩ |
      ⟨data, t, session, reply, asked, _, _, _, _, hm, _, hout⟩
    · rw [hout]
      refine ⟨by simp [Event.isProviderCall], by simp, rfl, ?_⟩
      intro data t session h1
      rw [h] at h1
      exact Except.noConfusion h1
    · rw [hout]
      refine ⟨by simp [Event.isProviderCall], by simp, rfl, ?_⟩
      intro data1 t session h1 h2
      rw [h] at h1
      simp only [Except.ok.injEq] at h1
      subst h1
      rw [ht] at h2
      exact Option.noConfusion h2
    · rw [hout]
      refine ⟨by simp [Event.isProviderCall], by simp, rfl, ?_⟩
      intro data1 t1 session _ _ h3
      rw [hfind] at h3
      exact Option.noConfusion h3
    · rw [hout]
      refine ⟨by simp [Event.isProviderCall], by simp, rfl, ?_⟩
      intro data1 t1 session _ _ _ h4
      rw [hs] at h4
      exact Option.noConfusion h4
    · rw [hout]
      exact ⟨by simp [Event.isProviderCall], by simp, rfl, fun _ _ _ _ _ _ _ => rfl⟩
    · rw [hnone t] at hm
      exact Option.noConfusion hm
    · rw [hnone t] at hm
      exact Option.noConfusion hm
    · rw [hnone t] at hm
      exact Option.noConfusion hm
  refine ⟨?_, key, rfl, rfl⟩
  rintro ⟨e, he, hprov⟩
  by_contra hcon
  have hunknown : rt.toLowerCase (selectedModel query) ≠ "gemini" ∧
      rt.toLowerCase (selectedModel query) ≠ "groq" := by
    constructor
    · intro h; exact hcon (Or.inl h)
    · intro h; exact hcon (Or.inr h)
  have := (key hunknown).1 e he
  rw [hprov] at this
  exact Bool.noConfusion this

/-- Witness for the amended C9: the model value "openai" on session "s1". -/
theorem voice_model_selection_witness :
    "uploads/a1b2c3" ≠ "" ∧ ready.fileExists = true ∧
    (voiceUpload Js.asciiRuntime "s1" (some "uploads/a1b2c3") (some "openai") steady ready).response =
      { status := 400, body := .error "Unknown model selected" } :=
  ⟨by decide, rfl,
    ((voice_model_selection Js.asciiRuntime "s1" "uploads/a1b2c3" (some "openai") steady ready (by decide)
      rfl).2.1 (by decide)).2.2.2 (.str "What is the weather today?")
        "What is the weather today?" _ rfl (by decide) rfl rfl⟩

end VoiceRoutes

namespace VoiceRoutes

theorem spoken_eq_some (data : JsText) (t : String) (h : spoken data = some t) :
    data = .str t := by
  cases data with
  | null => simp [spoken] at h
  | undefined => simp [spoken] at h
  | str s =>
    simp only [spoken] at h
    split at h
    · simp at h
    · simp only [Option.some.injEq] at h
      rw [h]

/-- What the `try` block does to the session store, whether or not the uploaded
file is still on disk: it never saves, or the save throws, or the save stores the
two-turn extension and is followed by the unlink. -/
theorem tryBlock_store_cases (rt : Js.Runtime)
    (sessionId filePath model : String) (w : Collab) (st : State) :
    ((tryBlock rt sessionId filePath model w st).state.store = st.store ∧
      Event.save sessionId ∉ (tryBlock rt sessionId filePath model w st).calls ∧
      (∀ res, (tryBlock rt sessionId filePath model w st).result = .ok res → res.status ≠ 200)) ∨
    (∃ session t reply asked e, st.store sessionId = some session ∧
      w.transcribe = .ok (.str t) ∧ spoken (.str t) = some t ∧
      askModel rt w model t = some (.ok reply, asked) ∧
      (tryBlock rt sessionId filePath model w st).state.store = st.store ∧
      (tryBlock rt sessionId filePath model w st).result = .error e) ∨
    (∃ session t reply asked, st.store sessionId = some session ∧
      w.transcribe = .ok (.str t) ∧ spoken (.str t) = some t ∧
      askModel rt w model t = some (.ok reply, asked) ∧
      (tryBlock rt sessionId filePath model w st).state.store =
        Function.update st.store sessionId (some (extended w session t reply)) ∧
      (tryBlock rt sessionId filePath model w st).calls =
        [.transcribe filePath, .findById sessionId] ++ asked ++
          [.save sessionId, .unlinkSync filePath] ∧
      ((tryBlock rt sessionId filePath model w st).result =
          .ok { status := 200, body := .success t reply true model } ∨
        ∃ e, (tryBlock rt sessionId filePath model w st).result = .error e)) := by
  cases hfe : st.fileExists <;>
  cases h : w.transcribe with
  | error e => left; simp [tryBlock, h]
  | ok data =>
    cases ht : spoken data with
    | none => left; simp [tryBlock, unlinkThenReturn, h, ht, hfe]
    | some t =>
      have hdata := spoken_eq_some data t ht
      subst hdata
      cases hfind : w.findByIdError with
      | some e => left; simp [tryBlock, h, ht, hfind]
      | none =>
        cases hs : st.store sessionId with
        | none => left; simp [tryBlock, unlinkThenReturn, h, ht, hfind, hs, hfe]
        | some session =>
          cases hm : askModel rt w model t with
          | none => left; simp [tryBlock, unlinkThenReturn, h, ht, hfind, hs, hm, hfe]
          | some res =>
            obtain ⟨res, asked⟩ := res
            have hasked : Event.save sessionId ∉ asked :=
              count_unlink_asked rt w model t res asked hm _ rfl
            cases res with
            | error e => left; simp [tryBlock, h, ht, hfind, hs, hm, hasked]
            | ok reply =>
              right
              cases hsave : w.saveError with
              | some e =>
                left
                exact ⟨session, t, reply, asked, e, rfl, rfl, ht, hm,
                  by simp [tryBlock, saveAndReply, h, ht, hfind, hs, hm, hsave],
                  by simp [tryBlock, saveAndReply, h, ht, hfind, hs, hm, hsave]⟩
              | none =>
                right
                exact ⟨session, t, reply, asked, rfl, rfl, ht, hm,
                  by simp [tryBlock, saveAndReply, unlinkThenReturn, h, ht, hfind, hs, hm,
                    hsave, hfe],
                  by simp [tryBlock, saveAndReply, unlinkThenReturn, h, ht, hfind, hs, hm,
                    hsave, hfe],
                  by simp [tryBlock, saveAndReply, unlinkThenReturn, h, ht, hfind, hs, hm,
                    hsave, hfe]⟩

/-- How the route wraps its `try` block: the store is the one the block left, the
calls are the block's calls followed at most by the `catch` block's file-system
calls, and a 200 response is one the block returned. -/
theorem voiceUpload_of_tryBlock (rt : Js.Runtime)
    (sessionId filePath : String) (query : Option String)
    (w : Collab) (st : State) (hp : filePath ≠ "") :
    (voiceUpload rt sessionId (some filePath) query w st).state.store =
      (tryBlock rt sessionId filePath (selectedModel query) w st).state.store ∧
    (Event.save sessionId ∈ (voiceUpload rt sessionId (some filePath) query w st).calls →
      Event.save sessionId ∈ (tryBlock rt sessionId filePath (selectedModel query) w st).calls) ∧
    ((voiceUpload rt sessionId (some filePath) query w st).response.status = 200 →
      (tryBlock rt sessionId filePath (selectedModel query) w st).result =
          .ok (voiceUpload rt sessionId (some filePath) query w st).response ∧
        (voiceUpload rt sessionId (some filePath) query w st).calls =
          (tryBlock rt sessionId filePath (selectedModel query) w st).calls) := by
  unfold voiceUpload
  simp only [hp, if_false]
  cases hres : (tryBlock rt sessionId filePath (selectedModel query) w st).result with
  | ok res => simp
  | error e =>
    simp only []
    unfold catchBlock
    split <;> simp [failure]

/-- C10: after any run of the voice route the history stored for the session is
either unchanged or the old history followed by exactly two turns, the user voice
turn holding the transcript and then the bot text turn holding the provider
reply, and no other session is touched; a 200 response means the two-turn
extension was stored and `session.save` came immediately before the deletion of
the temporary file; and when the transcript is blank, the session is missing, the
model is unknown or the provider call fails, nothing is stored and `save` is not
called. -/
theorem voice_history_two_turns (rt : Js.Runtime) (sessionId : String) (file : Option String)
    (query : Option String) (w : Collab) (st : State) :
    (∀ id, id ≠ sessionId →
      (voiceUpload rt sessionId file query w st).state.store id = st.store id) ∧
    ((voiceUpload rt sessionId file query w st).state.store sessionId = st.store sessionId ∨
      ∃ session t reply, st.store sessionId = some session ∧
        (voiceUpload rt sessionId file query w st).state.store sessionId =
          some { chatHistory := session.chatHistory ++
                   [{ id := w.uuid1, role := "user", content := t, timestamp := w.now1,
                      messageType := "voice" },
                    { id := w.uuid2, role := "bot", content := reply, timestamp := w.now2,
                      messageType := "text" }]
                 lastEditedAt := w.now3 }) ∧
    ((voiceUpload rt sessionId file query w st).response.status = 200 →
      ∃ filePath session t reply asked, file = some filePath ∧
        st.store sessionId = some session ∧
        w.transcribe = .ok (.str t) ∧
        askModel rt w (selectedModel query) t = some (.ok reply, asked) ∧
        (voiceUpload rt sessionId file query w st).response.body =
          .success t reply true (selectedModel query) ∧
        (voiceUpload rt sessionId file query w st).state.store sessionId =
          some { chatHistory := session.chatHistory ++
                   [{ id := w.uuid1, role := "user", content := t, timestamp := w.now1,
                      messageType := "voice" },
                    { id := w.uuid2, role := "bot", content := reply, timestamp := w.now2,
                      messageType := "text" }]
                 lastEditedAt := w.now3 } ∧
        (voiceUpload rt sessionId file query w st).calls =
          [.transcribe filePath, .findById sessionId] ++ asked ++
            [.save sessionId, .unlinkSync filePath]) ∧
    (((∃ data, w.transcribe = .ok data ∧ spoken data = none) ∨
        st.store sessionId = none ∨
        (rt.toLowerCase (selectedModel query) ≠ "gemini" ∧
          rt.toLowerCase (selectedModel query) ≠ "groq") ∨
        (∃ data t e asked, w.transcribe = .ok data ∧ spoken data = some t ∧
          askModel rt w (selectedModel query) t = some (.error e, asked))) →
      (voiceUpload rt sessionId file query w st).state.store = st.store ∧
      Event.save sessionId ∉ (voiceUpload rt sessionId file query w st).calls) := by
  have hnofile : ∀ f, (f = none ∨ f = some "") →
      voiceUpload rt sessionId f query w st =
        { response := { status := 400, body := .error "No audio file uploaded" }
          state := st, calls := [] } := by
    rintro f (hf | hf) <;> subst hf <;> simp [voiceUpload]
  have hfile : (file = none ∨ file = some "") ∨ ∃ filePath, file = some filePath ∧ filePath ≠ "" := by
    cases file with
    | none => exact Or.inl (Or.inl rfl)
    | some filePath =>
      by_cases hp : filePath = ""
      · subst hp; exact Or.inl (Or.inr rfl)
      · exact Or.inr ⟨filePath, rfl, hp⟩
  rcases hfile with hf | ⟨filePath, hf, hp⟩
  · rw [hnofile file hf]
    exact ⟨fun _ _ => rfl, Or.inl rfl, by simp, fun _ => ⟨rfl, by simp⟩⟩
  · subst hf
    obtain ⟨hstore, hsaved, hok⟩ := voiceUpload_of_tryBlock rt sessionId filePath query w st hp
    rcases tryBlock_store_cases rt sessionId filePath (selectedModel query) w st with
      ⟨h1, h2, h3⟩ | ⟨session, t, reply, asked, e, hs, h, ht, hm, h1, h2⟩ |
      ⟨session, t, reply, asked, hs, h, ht, hm, h1, h2, h3⟩
    · rw [hstore, h1]
      refine ⟨fun _ _ => rfl, Or.inl rfl, ?_, fun _ => ⟨rfl, fun hmem => h2 (hsaved hmem)⟩⟩
      intro h200
      exact absurd h200 (h3 _ (hok h200).1)
    · have hcontra : ¬ ((∃ data, w.transcribe = .ok data ∧ spoken data = none) ∨
          st.store sessionId = none ∨
          (rt.toLowerCase (selectedModel query) ≠ "gemini" ∧
            rt.toLowerCase (selectedModel query) ≠ "groq") ∨
          (∃ data t e asked, w.transcribe = .ok data ∧ spoken data = some t ∧
            askModel rt w (selectedModel query) t = some (.error e, asked))) := by
        rintro (⟨data1, k1, k2⟩ | k1 | k1 | ⟨data1, t1, e1, asked1, k1, k2, k3⟩)
        · rw [h] at k1
          simp only [Except.ok.injEq] at k1
          subst k1
          rw [ht] at k2
          exact Option.noConfusion k2
        · rw [hs] at k1
          exact Option.noConfusion k1
        · rw [(askModel_eq_none_iff rt w _ t).2 k1] at hm
          exact Option.noConfusion hm
        · rw [h] at k1
          simp only [Except.ok.injEq] at k1
          subst k1
          rw [ht] at k2
          simp only [Option.some.injEq] at k2
          subst k2
          rw [hm] at k3
          simp at k3
      rw [hstore, h1]
      refine ⟨fun _ _ => rfl, Or.inl rfl, ?_, fun hc => absurd hc hcontra⟩
      intro h200
      have := (hok h200).1
      rw [h2] at this
      exact Except.noConfusion this
    · have hcontra : ¬ ((∃ data, w.transcribe = .ok data ∧ spoken data = none) ∨
          st.store sessionId = none ∨
          (rt.toLowerCase (selectedModel query) ≠ "gemini" ∧
            rt.toLowerCase (selectedModel query) ≠ "groq") ∨
          (∃ data t e asked, w.transcribe = .ok data ∧ spoken data = some t ∧
            askModel rt w (selectedModel query) t = some (.error e, asked))) := by
        rintro (⟨data1, k1, k2⟩ | k1 | k1 | ⟨data1, t1, e1, asked1, k1, k2, k3⟩)
        · rw [h] at k1
          simp only [Except.ok.injEq] at k1
          subst k1
          rw [ht] at k2
          exact Option.noConfusion k2
        · rw [hs] at k1
          exact Option.noConfusion k1
        · rw [(askModel_eq_none_iff rt w _ t).2 k1] at hm
          exact Option.noConfusion hm
        · rw [h] at k1
          simp only [Except.ok.injEq] at k1
          subst k1
          rw [ht] at k2
          simp only [Option.some.injEq] at k2
          subst k2
          rw [hm] at k3
          simp at k3
      have hnew : (voiceUpload rt sessionId (some filePath) query w st).state.store sessionId =
          some { chatHistory := session.chatHistory ++
                   [{ id := w.uuid1, role := "user", content := t, timestamp := w.now1,
                      messageType := "voice" },
                    { id := w.uuid2, role := "bot", content := reply, timestamp := w.now2,
                      messageType := "text" }]
                 lastEditedAt := w.now3 } := by
        rw [hstore, h1]
        simp [extended, newTurns]
      refine ⟨?_, Or.inr ⟨session, t, reply, hs, hnew⟩, ?_, fun hc => absurd hc hcontra⟩
      · intro id hid
        rw [hstore, h1]
        exact Function.update_noteq hid _ _
      · intro h200
        obtain ⟨hres, hcalls⟩ := hok h200
        refine ⟨filePath, session, t, reply, asked, rfl, hs, h, hm, ?_, hnew, ?_⟩
        · rcases h3 with h3 | ⟨e, h3⟩
          · rw [h3] at hres
            simp only [Except.ok.injEq] at hres
            rw [← hres]
          · rw [h3] at hres
            exact Except.noConfusion hres
        · rw [hcalls, h2]

/-- Witness for C10: a successful run on session "s1" stores the old turn followed
by the two new ones. -/
theorem voice_history_two_turns_witness :
    (voiceUpload Js.asciiRuntime "s1" (some "uploads/a1b2c3")
      none steady ready).response.status = 200 ∧
    ∃ filePath session t reply asked, some "uploads/a1b2c3" = some filePath ∧
      ready.store "s1" = some session ∧
      steady.transcribe = .ok (.str t) ∧
      askModel Js.asciiRuntime steady (selectedModel none) t = some (.ok reply, asked) ∧
      (voiceUpload Js.asciiRuntime "s1" (some "uploads/a1b2c3") none steady ready).response.body =
        .success t reply true (selectedModel none) ∧
      (voiceUpload Js.asciiRuntime "s1" (some "uploads/a1b2c3")
        none steady ready).state.store "s1" =
        some { chatHistory := session.chatHistory ++
                 [{ id := steady.uuid1, role := "user", content := t,
                    timestamp := steady.now1, messageType := "voice" },
                  { id := steady.uuid2, role := "bot", content := reply,
                    timestamp := steady.now2, messageType := "text" }]
               lastEditedAt := steady.now3 } ∧
      (voiceUpload Js.asciiRuntime "s1" (some "uploads/a1b2c3") none steady ready).calls =
        [.transcribe filePath, .findById "s1"] ++ asked ++
          [.save "s1", .unlinkSync filePath] :=
  ⟨by decide,
    (voice_history_two_turns Js.asciiRuntime "s1" (some "uploads/a1b2c3") none steady ready).2.2.1
      (by decide)⟩

end VoiceRoutes

